import Mathlib

/-!
Verification of the `nii_dg` RO-Crate packaging and validation library
(repository `ivis-tsukioka/nii-dg-fork`).

The development shallowly embeds the Python sources:

* `nii_dg/ro_crate.py` — the `ROCrate` class (entity graph, add/remove,
  duplicate detection, JSON-LD encoding/decoding, aggregate checking);
* `nii_dg/utils.py` — the type-expression interpreter
  (`convert_string_type_to_python_type`, `import_entity_class`) and the
  value-format checkers (`check_content_size`, ...);
* `nii_dg/schema/amed.py` and `nii_dg/schema/cao.py` — the `DMP.validate`
  governance rules.

Python exceptions are embedded as `Except PyErr`; Python dicts as ordered
association lists; Python's mutable aliasing of `root["hasPart"]` with
`data_entities` is embedded separately as a small heap model.

The modules `nii_dg/entity.py`, `nii_dg/error.py`, `nii_dg/const.py` and the
helpers `nii_dg.utils.sum_file_size` / `parse_ctx` / `import_custom_class` /
`ROCrate.get_by_entity_type` are referenced by the sources but are not among
the source files; definitions for them below are modelled from the spec and
are marked `Modelled from the spec:` in their doc comments.
-/

set_option autoImplicit false

namespace NiiDg

/-! ## Scalar and property values

Entity property values (spec section 3): a value is a scalar, a homogeneous
sequence, or a non-owning reference to another entity.  A live Python
reference to an entity object is embedded as `sref id` (claims compare
references by the referenced entity's id); a plain JSON object of the shape
`\x7b"@id": id\x7d`, as produced by serialization, is embedded as `sidObj id`. -/

inductive Scalar where
  | sstr (s : String)
  | snum (n : Int)
  | sbool (b : Bool)
  | snull
  | sref (id : String)
  | sidObj (id : String)
deriving DecidableEq, Repr

inductive PropValue where
  | single (v : Scalar)
  | vlist (vs : List Scalar)
deriving DecidableEq, Repr

/-- Shorthand for a string-valued property. -/
def pvStr (s : String) : PropValue := .single (.sstr s)

/-- Reference-collapse on scalars (spec section 6): a live entity reference
serializes as an id-only object; everything else is unchanged. -/
def Scalar.collapse : Scalar → Scalar
  | .sref i => .sidObj i
  | v => v

/-- Reference-collapse on property values, applied element-wise to sequences. -/
def PropValue.collapse : PropValue → PropValue
  | .single v => .single v.collapse
  | .vlist vs => .vlist (vs.map Scalar.collapse)

/-- Reference-collapse applied to one property entry. -/
def collapseKV (kv : String × PropValue) : String × PropValue :=
  (kv.1, kv.2.collapse)

/-! ## Contexts and entities -/

/-- `nii_dg/module_info.py`: `GH_REPO`. -/
def GH_REPO : String := "ivis-tsukioka/nii-dg-fork"

/-- `nii_dg/module_info.py`: `GH_REF`. -/
def GH_REF : String := "demo-myschema-01"

/-- Modelled from the spec: a per-entity `@context` value encodes
(repository identifier, version reference, domain name) (spec section 6);
`nii_dg/const.py`, which builds the context URL string, is not among the
source files, so the triple is embedded structurally. -/
structure Ctx where
  ghRepo : String
  ghRef : String
  schema : String
deriving DecidableEq, Repr

/-- A `@context` value in a document: either the fixed RO-Crate envelope
context (`RO_CRATE_CONTEXT` in `nii_dg/const.py`) or a per-domain context. -/
inductive CtxVal where
  | roCrate
  | custom (c : Ctx)
deriving DecidableEq, Repr

/-- The Python class tag of an entity: `DefaultEntity`, `DataEntity`,
`ContextualEntity`, or the plain `Entity` base class (spec section 3 entity
variants; the classes live in the absent `nii_dg/entity.py`). -/
inductive Variant where
  | defaultE
  | dataE
  | contextualE
  | plainE
deriving DecidableEq, Repr

/-- Modelled from the spec: an entity (`nii_dg/entity.py` is not among the
source files) has identity `(id, type, domain)` and an ordered property
mapping (spec section 3).  `variant` records its Python class tag. -/
structure EntityData where
  id : String
  type : String
  schemaName : String
  variant : Variant
  props : List (String × PropValue)
deriving DecidableEq, Repr

/-- Modelled from the spec: `entity.context` (used by
`ROCrate.check_duplicate_entity`) is determined by the fixed repository and
reference constants together with the entity's domain name. -/
def EntityData.context (e : EntityData) : Ctx :=
  ⟨GH_REPO, GH_REF, e.schemaName⟩

/-- Modelled from the spec: the string form `f"\x7bself\x7d"` of an entity used
inside error messages (the `__repr__` of the absent `nii_dg/entity.py`). -/
def entityRepr (e : EntityData) : String :=
  "<" ++ e.type ++ " " ++ e.id ++ ">"

/-! ## Python dict primitives (ordered association lists) -/

/-- `d[k]` lookup returning the first value stored under `k`. -/
def dictGet (l : List (String × PropValue)) (k : String) : Option PropValue :=
  (l.find? (fun kv => kv.1 = k)).map (·.2)

/-- `k in d` membership test. -/
def hasProp (e : EntityData) (k : String) : Bool :=
  (e.props.find? (fun kv => kv.1 = k)).isSome

/-- `d[k] = v` assignment: replaces the value kept at the existing position of
`k`, or appends a new entry at the end (Python dict semantics). -/
def dictSet (l : List (String × PropValue)) (k : String) (v : PropValue) :
    List (String × PropValue) :=
  if l.any (fun kv => kv.1 = k) then
    l.map (fun kv => if kv.1 = k then (k, v) else kv)
  else
    l ++ [(k, v)]

/-- All values stored under key `k`, in order (a Python dict holds at most
one). -/
def lookupAll (l : List (String × PropValue)) (k : String) : List PropValue :=
  (l.filter (fun kv => kv.1 = k)).map (·.2)

/-! ## Errors

Modelled from the spec: the exception taxonomy of the absent
`nii_dg/error.py` (spec sections 3 and 7): `EntityError` accumulates
`property -> message` pairs for one entity; `CrateCheckPropsError` and
`CrateValidationError` aggregate `EntityError`s across the graph;
`CrateError` is an immediate graph-level error; `PropsError`,
`GovernanceError`, `ValueError`, `TypeError` and unexpected internal errors
propagate as raised. -/

structure EntityErr where
  entity : EntityData
  messages : List (String × String)
deriving DecidableEq, Repr

inductive PyErr where
  | crateError (msg : String)
  | checkPropsError (errs : List EntityErr)
  | validationError (errs : List EntityErr)
  | entityError (err : EntityErr)
  | propsError (msg : String)
  | governanceError (msg : String)
  | valueError (msg : String)
  | typeError (msg : String)
  | unexpected (msg : String)
deriving DecidableEq, Repr

/-! ## The RO-Crate graph -/

/-- `ROCrate` state (`nii_dg/ro_crate.py` lines 45-48): the three entity
sequences and the distinguished root.  `root` is the same entity value as the
head of `default_entities` (in Python the same object). -/
structure Crate where
  default_entities : List EntityData
  data_entities : List EntityData
  contextual_entities : List EntityData
  root : EntityData
deriving DecidableEq, Repr

/-- `ROCrate.all_entities` (ro_crate.py lines 120-128). -/
def Crate.all_entities (c : Crate) : List EntityData :=
  c.default_entities ++ c.data_entities ++ c.contextual_entities

/-- `ROCrate.get_by_id` (ro_crate.py lines 130-140). -/
def Crate.get_by_id (c : Crate) (id_ : String) : List EntityData :=
  c.all_entities.filter (fun e => e.id = id_)

/-- `ROCrate.get_by_type` (ro_crate.py lines 142-152). -/
def Crate.get_by_type (c : Crate) (type_ : String) : List EntityData :=
  c.all_entities.filter (fun e => e.type = type_)

/-- Modelled from the spec: `ROCrate.get_by_entity_type(cls)` is called by the
schema modules but is not defined in the `ro_crate.py` source file; per the
schema modules' use it returns the entities whose class is `cls`, i.e. whose
domain and kind name match. -/
def Crate.get_by_entity_type (c : Crate) (schemaName typeName : String) :
    List EntityData :=
  c.all_entities.filter (fun e => e.schemaName = schemaName ∧ e.type = typeName)

/-- `RootDataEntity()` as built by `ROCrate.__init__` (ro_crate.py line 63):
fixed id `"./"`, type `"Dataset"`, base domain, no properties yet. -/
def rootDataEntityNew : EntityData :=
  ⟨"./", "Dataset", "base", .defaultE, []⟩

/-- `ROCrateMetadata()` as built by `ROCrate.__init__` (ro_crate.py line 64). -/
def roCrateMetadataNew : EntityData :=
  ⟨"ro-crate-metadata.json", "CreativeWork", "base", .defaultE, []⟩

/-- The value observed in `root["hasPart"]` when it holds the live
`data_entities` list (ro_crate.py line 68): a sequence of live entity
references. -/
def hasPartValue (data : List EntityData) : PropValue :=
  .vlist (data.map (fun e => .sref e.id))

/-- `ROCrate.__init__` without a JSON-LD document (ro_crate.py lines 60-68):
fresh root and metadata entities, empty data/contextual sequences, and
`root["hasPart"] = data_entities`. -/
def Crate.init : Crate :=
  let root := { rootDataEntityNew with
    props := dictSet rootDataEntityNew.props "hasPart" (hasPartValue []) }
  ⟨[root, roCrateMetadataNew], [], [], root⟩

/-- `ROCrate.add` for a single entity (ro_crate.py lines 81-89). -/
def Crate.addOne (c : Crate) (e : EntityData) : Except PyErr Crate :=
  match e.variant with
  | .defaultE => .ok { c with default_entities := c.default_entities ++ [e] }
  | .dataE => .ok { c with data_entities := c.data_entities ++ [e] }
  | .contextualE =>
      .ok { c with contextual_entities := c.contextual_entities ++ [e] }
  | .plainE =>
      .error (.typeError "'Entity' class is not supported to be added directly. Please use 'DefaultEntity', 'DataEntity', or 'ContextualEntity' instead.")

/-- `ROCrate.add(*entities)` (ro_crate.py lines 70-89). -/
def Crate.add (c : Crate) (es : List EntityData) : Except PyErr Crate :=
  es.foldlM Crate.addOne c

/-- `ROCrate.remove` for a single entity (ro_crate.py lines 107-118):
absent entity and `DefaultEntity` raise `ValueError`; a plain `Entity`
raises `TypeError`; otherwise the first occurrence is removed from the
matching sequence (Python `list.remove`). -/
def Crate.removeOne (c : Crate) (e : EntityData) : Except PyErr Crate :=
  if e ∉ c.all_entities then
    .error (.valueError ("Entity " ++ entityRepr e ++ " is not included in the RO-Crate."))
  else match e.variant with
  | .defaultE =>
      .error (.valueError ("Entity " ++ entityRepr e ++ " is a DefaultEntity and cannot be removed."))
  | .dataE => .ok { c with data_entities := c.data_entities.erase e }
  | .contextualE =>
      .ok { c with contextual_entities := c.contextual_entities.erase e }
  | .plainE =>
      .error (.typeError "'Entity' class is not supported to be removed directly. Please use 'DefaultEntity', 'DataEntity', or 'ContextualEntity' instead.")

/-- `ROCrate.remove(*entities)` (ro_crate.py lines 91-118). -/
def Crate.remove (c : Crate) (es : List EntityData) : Except PyErr Crate :=
  es.foldlM Crate.removeOne c

/-- Rendering of the duplicated `(id, context)` list inside the
`CrateError` message of `check_duplicate_entity` (models the f-string
interpolation of the Python list). -/
def dupListRepr (dups : List (String × Ctx)) : String :=
  String.intercalate ", " (dups.map (fun p => p.1 ++ "@" ++ p.2.schema))

/-- `ROCrate.check_duplicate_entity` (ro_crate.py lines 223-236): collect the
`(id, context)` pairs that occur more than once; raise `CrateError` when any
exist. -/
def Crate.check_duplicate_entity (c : Crate) : Except PyErr Unit :=
  let id_ctx := c.all_entities.map (fun e => (e.id, e.context))
  let dup_id_ctx := id_ctx.filter (fun p => 1 < id_ctx.count p)
  if 0 < dup_id_ctx.length then
    .error (.crateError ("Duplicate entities are found in the RO-Crate: " ++ dupListRepr dup_id_ctx))
  else
    .ok ()

/-! ## Graph-wide structure check and validation (ro_crate.py lines 238-262)

The per-entity calls `entity.check_props()` and `entity.validate(self)` are
polymorphic over the schema classes; the orchestration below is parameterized
by the function the dynamic dispatch resolves to (`checkF`, respectively
`validateF` with the crate already applied). -/

/-- The accumulation loop shared by `ROCrate.check_props` and
`ROCrate.validate`: an `EntityError` raised by an entity is collected
(`crate_error.add(e)`); any other exception is re-raised at once
(`except Exception as e: raise e`). -/
def collectEntityErrors (checkF : EntityData → Except PyErr Unit) :
    List EntityData → List EntityErr → Except PyErr (List EntityErr)
  | [], acc => .ok acc
  | e :: rest, acc =>
    match checkF e with
    | .ok () => collectEntityErrors checkF rest acc
    | .error (.entityError err) => collectEntityErrors checkF rest (acc ++ [err])
    | .error other => .error other

/-- `ROCrate.check_props` (ro_crate.py lines 238-249): collect, re-raise a
propagating exception, and raise the aggregate when `has_error()`. -/
def Crate.check_props (checkF : EntityData → Except PyErr Unit) (c : Crate) :
    Except PyErr Unit :=
  match collectEntityErrors checkF c.all_entities [] with
  | .error err => .error err
  | .ok errs => if 0 < errs.length then .error (.checkPropsError errs) else .ok ()

/-- `ROCrate.validate` (ro_crate.py lines 251-262); `validateF e` stands for
`e.validate(self)` with the crate already applied. -/
def Crate.validate (validateF : EntityData → Except PyErr Unit) (c : Crate) :
    Except PyErr Unit :=
  match collectEntityErrors validateF c.all_entities [] with
  | .error err => .error err
  | .ok errs => if 0 < errs.length then .error (.validationError errs) else .ok ()

/-! ## JSON-LD documents -/

/-- One node of a JSON-LD `@graph`: the reserved `@id` / `@type` / `@context`
members (each possibly absent) and the remaining properties. -/
structure JNode where
  idKey : Option String
  typeKey : Option String
  ctxKey : Option CtxVal
  fields : List (String × PropValue)
deriving DecidableEq, Repr

/-- A JSON-LD document: the `@context` and `@graph` members, each possibly
absent (ro_crate.py lines 157-162 check their presence). -/
structure JsonLdDoc where
  contextKey : Option CtxVal
  graphKey : Option (List JNode)
deriving DecidableEq, Repr

/-- Modelled from the spec: `Entity.as_jsonld` of the absent
`nii_dg/entity.py` serializes the property bag with every entity-object
property (or sequence thereof) collapsed to an id-only reference, together
with the entity's `@id`, `@type` and `@context` (spec sections 4.2 and 6). -/
def EntityData.as_jsonld (e : EntityData) : JNode :=
  ⟨some e.id, some e.type, some (.custom e.context), e.props.map collapseKV⟩

/-- Modelled from the spec: `Entity.from_jsonld` of a schema entity class
constructs an entity of that class holding the node's non-reserved members as
its property bag (spec section 4.2 `decode`). -/
def entityFromJsonld (id_ type_ schemaName : String) (variant : Variant)
    (node : JNode) : EntityData :=
  ⟨id_, type_, schemaName, variant, node.fields⟩

/-- Modelled from the spec: `parse_ctx` (imported by `ro_crate.py` from
`nii_dg.utils` but not defined in the `utils.py` source file) recovers the
`(repository, version reference, domain name)` triple from a per-domain
context; the fixed envelope context does not encode such a triple (spec
section 6). -/
def parse_ctx : CtxVal → Except PyErr (String × String × String)
  | .roCrate => .error (.valueError "The context does not encode a schema module.")
  | .custom c => .ok (c.ghRepo, c.ghRef, c.schema)

/-- The accumulator of the `for entity in jsonld["@graph"]` loop of
`ROCrate.from_jsonld` (ro_crate.py lines 164-194). -/
structure DecodeAcc where
  rootE : Option EntityData
  metaE : Option EntityData
  dataEs : List EntityData
  ctxEs : List EntityData

/-- Modelled from the spec: `import_custom_class(module, name)` (imported by
`ro_crate.py` from `nii_dg.utils` but not defined in the `utils.py` source
file) resolves an entity-kind constructor from a domain's schema module,
returning `None` when the name is absent (spec section 6: the entity-kind
resolver `(domain, kindName) -> constructor`).  It is embedded as a
resolver argument `resolve : domain -> kind -> Option Variant` giving the
class tag of the resolved constructor. -/
def importCustomClass (resolve : String → String → Option Variant)
    (schema type_ : String) : Option Variant :=
  resolve schema type_

/-- The node loop of `ROCrate.from_jsonld` (ro_crate.py lines 169-194): a
node with the fixed root-dataset signature becomes the root, one with the
fixed metadata signature becomes the metadata entity, and every other node is
dispatched through its context's domain to the entity-kind resolver and
appended to the matching sequence. -/
def fromJsonldLoop (resolve : String → String → Option Variant) :
    List JNode → DecodeAcc → Except PyErr DecodeAcc
  | [], acc => .ok acc
  | node :: rest, acc =>
    match node.idKey with
    | none => .error (.valueError "The JSON-LD data must have an '@id' key for each entity.")
    | some id_ =>
      match node.typeKey with
      | none => .error (.valueError "The JSON-LD data must have an '@type' key for each entity.")
      | some type_ =>
        if id_ = "./" ∧ type_ = "Dataset" then
          fromJsonldLoop resolve rest
            { acc with rootE := some (entityFromJsonld "./" "Dataset" "base" .defaultE node) }
        else if id_ = "ro-crate-metadata.json" ∧ type_ = "CreativeWork" then
          fromJsonldLoop resolve rest
            { acc with metaE := some (entityFromJsonld "ro-crate-metadata.json" "CreativeWork" "base" .defaultE node) }
        else
          match parse_ctx (node.ctxKey.getD .roCrate) with
          | .error err => .error err
          | .ok (_ghRepo, _ghRef, schema) =>
            match importCustomClass resolve schema type_ with
            | none => .error (.valueError ("Entity type " ++ type_ ++ " is not found."))
            | some variant =>
              let inst := entityFromJsonld id_ type_ schema variant node
              match variant with
              | .dataE =>
                  fromJsonldLoop resolve rest { acc with dataEs := acc.dataEs ++ [inst] }
              | .contextualE =>
                  fromJsonldLoop resolve rest { acc with ctxEs := acc.ctxEs ++ [inst] }
              | _ => .error (.valueError ("Entity type " ++ type_ ++ " is not supported."))

/-- `ROCrate.from_jsonld` (ro_crate.py lines 154-202) followed by the tail of
`ROCrate.__init__` (line 68): envelope checks, the node loop, the
exactly-one-root / exactly-one-metadata checks, and finally
`self.root["hasPart"] = self.data_entities`. -/
def Crate.from_jsonld (resolve : String → String → Option Variant)
    (doc : JsonLdDoc) : Except PyErr Crate :=
  match doc.contextKey with
  | none => .error (.valueError "The JSON-LD data must have a '@context' key.")
  | some ctxv =>
    if ctxv ≠ .roCrate then
      .error (.valueError "The JSON-LD data must have the RO-Crate context.")
    else match doc.graphKey with
    | none => .error (.valueError "The JSON-LD data must have a '@graph' key.")
    | some graph =>
      match fromJsonldLoop resolve graph ⟨none, none, [], []⟩ with
      | .error err => .error err
      | .ok acc =>
        match acc.rootE with
        | none => .error (.valueError "The JSON-LD data must have a root data entity.")
        | some root =>
          match acc.metaE with
          | none => .error (.valueError "The JSON-LD data must have a metadata entity.")
          | some meta =>
            let root' := { root with
              props := dictSet root.props "hasPart" (hasPartValue acc.dataEs) }
            .ok ⟨[root', meta], acc.dataEs, acc.ctxEs, root'⟩

/-- `ROCrate.as_jsonld` (ro_crate.py lines 204-211): duplicate check, then
the graph-wide structure check, then the envelope with every entity
serialized. -/
def Crate.as_jsonld (checkF : EntityData → Except PyErr Unit) (c : Crate) :
    Except PyErr JsonLdDoc :=
  match c.check_duplicate_entity with
  | .error err => .error err
  | .ok () =>
    match c.check_props checkF with
    | .error err => .error err
    | .ok () => .ok ⟨some .roCrate, some (c.all_entities.map EntityData.as_jsonld)⟩

/-! ## String helpers for the type-expression interpreter

`convert_string_type_to_python_type` (utils.py lines 80-123) manipulates the
type-expression string by slicing; the embedding works on the character list
of the string (`String.data`). -/

/-- `s.startswith(p)`: the first `p.length` characters equal `p`. -/
def strHead (p l : List Char) : Bool :=
  decide (l.take p.length = p)

/-- Python `s.split(", ")` on character lists: split at each leftmost,
non-overlapping occurrence of the two-character separator `", "`. -/
def splitSep : List Char → List (List Char)
  | [] => [[]]
  | [c] => [[c]]
  | c1 :: c2 :: rest =>
    if c1 = ',' ∧ c2 = ' ' then [] :: splitSep rest
    else
      match splitSep (c2 :: rest) with
      | [] => [[c1]]
      | p :: ps => (c1 :: p) :: ps

/-- Python `s.strip(c)`: remove every leading and trailing occurrence of `c`. -/
def stripChar (c : Char) (l : List Char) : List Char :=
  ((l.dropWhile (fun x => x = c)).reverse.dropWhile (fun x => x = c)).reverse

theorem splitSep_length_le_aux :
    ∀ (n : Nat) (l : List Char), l.length ≤ n → ∀ p ∈ splitSep l, p.length ≤ l.length := by
  intro n
  induction n with
  | zero =>
    intro l hl p hp
    have hnil : l = [] := List.eq_nil_of_length_eq_zero (Nat.le_zero.mp hl)
    subst hnil
    simp [splitSep] at hp
    simp [hp]
  | succ n ih =>
    intro l hl p hp
    match l with
    | [] => simp [splitSep] at hp; simp [hp]
    | [c] => simp [splitSep] at hp; simp [hp]
    | c1 :: c2 :: rest =>
      by_cases hsep : c1 = ',' ∧ c2 = ' '
      · simp only [splitSep, if_pos hsep] at hp
        rcases List.mem_cons.mp hp with h | h
        · simp [h]
        · have hr : rest.length ≤ n := by simp at hl; omega
          have := ih rest hr p h
          simp
          omega
      · simp only [splitSep, if_neg hsep] at hp
        have hr : (c2 :: rest).length ≤ n := by simp at hl ⊢; omega
        rcases hrec : splitSep (c2 :: rest) with _ | ⟨q, qs⟩
        · rw [hrec] at hp
          simp at hp
          simp [hp]
        · rw [hrec] at hp
          rcases List.mem_cons.mp hp with h | h
          · have := ih (c2 :: rest) hr q (by rw [hrec]; exact List.mem_cons_self q qs)
            subst h
            simp at this ⊢
            omega
          · have := ih (c2 :: rest) hr p (by rw [hrec]; exact List.mem_cons_of_mem q h)
            simp at this ⊢
            omega

theorem splitSep_length_le :
    ∀ (l : List Char), ∀ p ∈ splitSep l, p.length ≤ l.length :=
  fun l => splitSep_length_le_aux l.length l le_rfl

theorem strHead_length_le {p l : List Char} (h : strHead p l = true) :
    p.length ≤ l.length := by
  have ht : l.take p.length = p := by simpa [strHead] using h
  have := congrArg List.length ht
  simp [List.length_take] at this
  omega

/-! ## The schema-module table

`import_entity_class` (utils.py lines 61-77) consults the filesystem for
`schema/<name>.py` and then Python's import machinery for the class; both are
embedded as a table argument `registry : module name -> Option (list of the
entity-class names defined in it)`, `none` meaning the module file is
absent. -/

/-- The identity of a resolved Python entity class: its schema module name
and its class name. -/
structure PyClass where
  schemaName : String
  entityName : String
deriving DecidableEq, Repr

/-- `import_entity_class` (utils.py lines 61-77). -/
def import_entity_class (registry : String → Option (List String))
    (schema_name entity_name : String) : Except PyErr PyClass :=
  match registry schema_name with
  | none =>
    .error (.propsError ("Tried to import " ++ entity_name ++ " from schema/" ++ schema_name ++ ".py, but this file is not found."))
  | some names =>
    if entity_name ∈ names then .ok ⟨schema_name, entity_name⟩
    else
      .error (.propsError ("Tried to import " ++ entity_name ++ " from schema/" ++ schema_name ++ ".py, but this entity is not found."))

/-- The Python type descriptors produced by
`convert_string_type_to_python_type`. -/
inductive PType where
  | pbool
  | pstr
  | pint
  | pfloat
  | pany
  | plist (t : PType)
  | punion (ts : List PType)
  | poptional (t : PType)
  | pliteral (vs : List String)
  | pentity (cls : PyClass)
deriving Repr

/-- `convert_string_type_to_python_type` (utils.py lines 80-123) on the
character list of the type-expression string.  The `Optional[` branch keeps
the source's slice `type_str[5:-1]` (utils.py line 101) as written. -/
def convertChars (registry : String → Option (List String))
    (ts : List Char) (schemaName : Option String) : Except PyErr PType :=
    if ts = "bool".data then .ok .pbool
    else if ts = "str".data then .ok .pstr
    else if ts = "int".data then .ok .pint
    else if ts = "float".data then .ok .pfloat
    else if ts = "Any".data then .ok .pany
    else if hList : strHead "List[".data ts then
      (convertChars registry ((ts.drop 5).dropLast) schemaName).map .plist
    else if hUnion : strHead "Union[".data ts then
      ((splitSep ((ts.drop 6).dropLast)).attach.mapM
        (fun p => convertChars registry p.1 schemaName)).map .punion
    else if hOpt : strHead "Optional[".data ts then
      (convertChars registry ((ts.drop 5).dropLast) schemaName).map .poptional
    else if strHead "Literal[".data ts then
      .ok (.pliteral ((splitSep ((ts.drop 8).dropLast)).map
        (fun p => String.mk (stripChar (Char.ofNat 39) (stripChar '"' p)))))
    else if ts.any (fun c => c = '[') then
      .error (.propsError ("Unexpected type: " ++ String.mk ts))
    else
      let schema := schemaName.getD "base"
      match import_entity_class registry schema (String.mk ts) with
      | .ok cls => .ok (.pentity cls)
      | .error _ =>
        if schema ≠ "base" then
          match import_entity_class registry "base" (String.mk ts) with
          | .ok cls => .ok (.pentity cls)
          | .error _ => .error (.propsError ("Unexpected type: " ++ String.mk ts))
        else .error (.propsError ("Unexpected type: " ++ String.mk ts))
termination_by ts.length
decreasing_by
  · have := strHead_length_le hList
    simp at this ⊢
    omega
  · have hp := p.2
    have hle := splitSep_length_le _ _ hp
    have := strHead_length_le hUnion
    simp at hle this ⊢
    omega
  · have := strHead_length_le hOpt
    simp at this ⊢
    omega

/-- `convert_string_type_to_python_type` (utils.py lines 80-123). -/
def convert_string_type_to_python_type (registry : String → Option (List String))
    (type_str : String) (schema_name : Option String) : Except PyErr PType :=
  convertChars registry type_str.data schema_name

/-! ## Value-format checkers and numeric helpers (utils.py) -/

/-- The optional unit letters of the `check_content_size` regular expression
`[KMGTP]`. -/
def sizeUnits : List Char := ['K', 'M', 'G', 'T', 'P']

/-- Whether a character list matches the regular expression
`^\d+[KMGTP]?B$` of `check_content_size` (utils.py line 225); `\d` is
embedded as an ASCII digit. -/
def contentSizeMatch (l : List Char) : Bool :=
  match l.getLast? with
  | some c =>
    if c = 'B' then
      (decide (l.dropLast ≠ []) && (l.dropLast).all Char.isDigit) ||
        (match (l.dropLast).getLast? with
         | some u =>
           decide (u ∈ sizeUnits) && decide ((l.dropLast).dropLast ≠ []) &&
             ((l.dropLast).dropLast).all Char.isDigit
         | none => false)
    else false
  | none => false

/-- `check_content_size` (utils.py lines 220-229): `ValueError` unless the
value fully matches `^\d+[KMGTP]?B$`. -/
def check_content_size (value : String) : Except PyErr Unit :=
  if contentSizeMatch value.data then .ok () else .error (.valueError "")

/-- Python `s[-2:]`. -/
def pyLastTwo (s : String) : String :=
  String.mk (s.data.drop (s.data.length - 2))

/-- Python `s[:-2]`. -/
def pyDropLastTwo (s : String) : String :=
  String.mk (s.data.take (s.data.length - 2))

/-- The numeric value of a nonempty ASCII digit list. -/
def digitsToNat (l : List Char) : Nat :=
  l.foldl (fun acc c => acc * 10 + (c.toNat - 48)) 0

/-- Python's `int(s)` on a string: surrounding spaces, an optional sign and
a nonempty digit run; anything else raises `ValueError`. -/
def pythonIntOfString (s : String) : Except PyErr Int :=
  let t := ((s.data.dropWhile (fun c => c = ' ')).reverse.dropWhile
    (fun c => c = ' ')).reverse
  let signAndDigits : Int × List Char :=
    match t with
    | '-' :: rest => (-1, rest)
    | '+' :: rest => (1, rest)
    | _ => (1, t)
  if signAndDigits.2 ≠ [] ∧ signAndDigits.2.all Char.isDigit then
    .ok (signAndDigits.1 * digitsToNat signAndDigits.2)
  else
    .error (.valueError ("invalid literal for int with base 10: " ++ s))

/-- The numeric part of a file entity's `contentSize`, unit stripped. -/
def fileSizeNum (f : EntityData) : Int :=
  match dictGet f.props "contentSize" with
  | some (.single (.sstr s)) => ((pythonIntOfString (pyDropLastTwo s)).toOption).getD 0
  | _ => 0

/-- Modelled from the spec: `sum_file_size(unit, crate, File)` is imported by
the schema modules from `nii_dg.utils` but is not defined in the `utils.py`
source file; per spec section 4.3 it totals the governed `File` entities'
`contentSize` values with the unit stripped, assuming every participant
shares the declared bound's unit (the unit argument is therefore not
consulted). -/
def sum_file_size (_unit : String) (crate : Crate)
    (schemaName typeName : String) : Int :=
  ((crate.get_by_entity_type schemaName typeName).map fileSizeNum).sum

/-- `verify_is_past_date` (utils.py lines 324-338).  The Python library
functions `datetime.date.fromisoformat` and `datetime.date.today` are
embedded as the parameters `isoDate` (ISO date string to day ordinal, `none`
for an invalid date string, which the source maps to `PropsError`) and
`todayOrd`; a missing key returns `None`, and
`(today - iso).days < 0` yields `False`, otherwise `True`. -/
def verify_is_past_date (isoDate : String → Option Int) (todayOrd : Int)
    (e : EntityData) (key : String) : Except PyErr (Option Bool) :=
  match dictGet e.props key with
  | none => .ok none
  | some (.single (.sstr s)) =>
    match isoDate s with
    | none =>
      .error (.propsError ("The value of " ++ key ++ " in " ++ entityRepr e ++ " is invalid date format. MUST be YYYY-MM-DD."))
    | some d => .ok (some (decide (0 ≤ todayOrd - d)))
  | some _ => .error (.unexpected "TypeError: fromisoformat argument must be str")

/-- `self[key]` subscript access: `KeyError` (an uncaught, non-taxonomy
exception) when the property is absent. -/
def getProp (e : EntityData) (k : String) : Except PyErr PropValue :=
  match dictGet e.props k with
  | some v => .ok v
  | none => .error (.unexpected ("KeyError: " ++ k))

/-- Membership of a live entity (compared through its id, the reference
observation used throughout) in a list-valued property, as in
`self not in dmp_metadata_ent["hasPart"]` (amed.py line 119). -/
def pvContainsRef (v : PropValue) (id_ : String) : Bool :=
  match v with
  | .vlist vs => decide (Scalar.sref id_ ∈ vs)
  | .single _ => false

/-! ## Governance validation of the `amed` and `cao` `DMP` entities

`amed.DMP.validate` (schema/amed.py lines 103-139) raises `GovernanceError`
directly at each violated rule; `cao.DMP.validate` (schema/cao.py lines
107-140) accumulates `(property, message)` pairs in an `EntityError` and
raises it once at the end. -/

/-- `amed.DMP.validate` (schema/amed.py lines 103-139). -/
def amed_DMP_validate (isoDate : String → Option Int) (todayOrd : Int)
    (crate : Crate) (self : EntityData) : Except PyErr Unit := do
  let ar ← getProp self "accessRights"
  if ar = pvStr "Unshared" ∨ ar = pvStr "Restricted Closed Sharing" then
    if ¬ (hasProp self "availabilityStarts" ∨ hasProp self "accessRightsInfo") then
      throw (.governanceError ("An availabilityStarts property is required in " ++ entityRepr self ++ ". If you keep data unshared, ab accessRightsInfo property is required instead."))
  if (← verify_is_past_date isoDate todayOrd self "availabilityStarts") = some true then
    throw (.governanceError ("The value of availabilityStarts property of " ++ entityRepr self ++ " MUST be the date of future."))
  let gic ← getProp self "gotInformedConsent"
  if gic = pvStr "yes" ∧ ¬ hasProp self "informedConsentFormat" then
    throw (.governanceError ("An informedConsentFormat property is required in " ++ entityRepr self ++ "."))
  match crate.get_by_entity_type "amed" "DMPMetadata" with
  | [] => throw (.governanceError "DMPMetadata Entity MUST be required with DMP entity.")
  | dmpMetadataEnt :: _ => do
    let metaHasPart ← getProp dmpMetadataEnt "hasPart"
    if ¬ pvContainsRef metaHasPart self.id then
      throw (.governanceError ("DMP entity " ++ entityRepr self ++ " is not included in the list of hasPart property of " ++ entityRepr dmpMetadataEnt ++ "."))
    if ¬ hasProp self "repository" then
      if ¬ hasProp dmpMetadataEnt "repository" then
        throw (.governanceError ("A repository property is required in " ++ entityRepr self ++ "."))
    if ar = pvStr "Unrestricted Open Sharing" ∧ ¬ hasProp self "distribution" then
      if ¬ hasProp dmpMetadataEnt "distribution" then
        throw (.governanceError ("A distribution property is required in " ++ entityRepr self ++ "."))
    if hasProp self "contentSize" then
      match ← getProp self "contentSize" with
      | .single (.sstr s) => do
        let sum := sum_file_size (pyLastTwo s) crate "amed" "File"
        if s ≠ "over100GB" then do
          let bound ← pythonIntOfString s
          if sum > bound then
            throw (.governanceError ("The total file size included in DMP " ++ entityRepr self ++ " is larger than the defined size."))
        if s = "over100GB" ∧ sum < 100 then
          throw (.governanceError ("The total file size included in DMP " ++ entityRepr self ++ " is smaller than 100GB."))
      | _ => throw (.unexpected "TypeError: contentSize is not a string")

/-- `cao.DMP.validate` (schema/cao.py lines 107-140). -/
def cao_DMP_validate (crate : Crate) (self : EntityData) : Except PyErr Unit := do
  let ar ← getProp self "accessRights"
  let fs0 : List (String × String) := []
  let fs1 := if ar = pvStr "embargoed access" ∧ ¬ hasProp self "availabilityStarts"
    then fs0 ++ [("availabilityStarts", "This property is required, but not found.")]
    else fs0
  let fs2 := if (ar = pvStr "open access" ∨ ar = pvStr "restricted access") ∧ ¬ hasProp self "isAccessibleForFree"
    then fs1 ++ [("isAccessibleForFree", "This property is required, but not found.")]
    else fs1
  let fs3 := if ar = pvStr "open access" ∧ ¬ hasProp self "license"
    then fs2 ++ [("license", "This property is required, but not found.")]
    else fs2
  match crate.get_by_entity_type "cao" "DMPMetadata" with
  | [] => throw (.crateError "Entity DMPMetadata MUST be required with DMP entity.")
  | dmpMetadataEnt :: _ => do
    let fs4 := if ¬ (hasProp self "repository" ∨ hasProp dmpMetadataEnt "repository")
      then fs3 ++ [("repository", "This property is required, but not found.")]
      else fs3
    let fs5 := if ar = pvStr "open access" ∧ ¬ (hasProp self "distribution" ∨ hasProp dmpMetadataEnt "distribution")
      then fs4 ++ [("distribution", "This property is required, but not found.")]
      else fs4
    let fs6 ← if hasProp self "contentSize" then do
        match ← getProp self "contentSize" with
        | .single (.sstr s) => do
          let sum := sum_file_size (pyLastTwo s) crate "cao" "File"
          let fsA ← if s ≠ "over100GB" then do
              let bound ← pythonIntOfString (pyDropLastTwo s)
              pure (if sum > bound
                then fs5 ++ [("contentSize", "The total file size included in this DMP is larger than the defined size.")]
                else fs5)
            else pure fs5
          pure (if s = "over100GB" ∧ sum < 100
            then fsA ++ [("contentSize", "The total file size included in this DMP is smaller than 100GB.")]
            else fsA)
        | _ => throw (.unexpected "TypeError: contentSize is not a string")
      else pure fs5
    if 0 < fs6.length then throw (.entityError ⟨self, fs6⟩) else pure ()

/-! ## Heap model of the `root["hasPart"]` aliasing

`ROCrate.__init__` (ro_crate.py line 68) stores the `data_entities` list
object itself into `root["hasPart"]`; `add` (line 84) appends to that list in
place and `remove` (line 114) removes from it in place, so the dict entry is
never reassigned.  Python list objects are embedded as heap addresses. -/

/-- A heap of Python list objects addressed by allocation index. -/
structure PyHeap where
  lists : List (List EntityData)
deriving DecidableEq, Repr

/-- Dereference a list object. -/
def PyHeap.get (h : PyHeap) (addr : Nat) : List EntityData :=
  h.lists.getD addr []

/-- In-place mutation of a list object. -/
def PyHeap.set (h : PyHeap) (addr : Nat) (l : List EntityData) : PyHeap :=
  ⟨h.lists.set addr l⟩

/-- The mutable state of an `ROCrate` relevant to the `hasPart` alias: the
list objects bound to the three entity-sequence attributes, and the list
reference stored in the root entity's `"hasPart"` dict slot. -/
structure RCState where
  heap : PyHeap
  defaultAddr : Nat
  dataAddr : Nat
  ctxAddr : Nat
  rootHasPart : Nat
deriving DecidableEq, Repr

/-- `ROCrate.__init__` without a JSON-LD document in the heap model
(ro_crate.py lines 63-68): three fresh list objects, then
`self.root["hasPart"] = self.data_entities`. -/
def RCState.initState : RCState :=
  ⟨⟨[[rootDataEntityNew, roCrateMetadataNew], [], []]⟩, 0, 1, 2, 1⟩

/-- `ROCrate.all_entities` in the heap model. -/
def RCState.allEntities (s : RCState) : List EntityData :=
  s.heap.get s.defaultAddr ++ s.heap.get s.dataAddr ++ s.heap.get s.ctxAddr

/-- One `add` or `remove` call with a single entity argument. -/
inductive RCOp where
  | addOp (e : EntityData)
  | removeOp (e : EntityData)
deriving DecidableEq, Repr

/-- Heap-model semantics of `add`/`remove` (ro_crate.py lines 81-89 and
107-118): sequences are mutated in place through their addresses; a raising
call (unsupported variant, absent entity, default entity) leaves the state
unchanged. -/
def RCState.applyOp (s : RCState) : RCOp → RCState
  | .addOp e =>
    match e.variant with
    | .defaultE => { s with heap := s.heap.set s.defaultAddr (s.heap.get s.defaultAddr ++ [e]) }
    | .dataE => { s with heap := s.heap.set s.dataAddr (s.heap.get s.dataAddr ++ [e]) }
    | .contextualE => { s with heap := s.heap.set s.ctxAddr (s.heap.get s.ctxAddr ++ [e]) }
    | .plainE => s
  | .removeOp e =>
    if e ∉ s.allEntities then s
    else
      match e.variant with
      | .defaultE => s
      | .dataE => { s with heap := s.heap.set s.dataAddr ((s.heap.get s.dataAddr).erase e) }
      | .contextualE => { s with heap := s.heap.set s.ctxAddr ((s.heap.get s.ctxAddr).erase e) }
      | .plainE => s

/-! ## Support definitions for the claim statements -/

/-- The tagging invariant of the three entity sequences: each sequence holds
only entities of its own class tag (maintained by `__init__`, `add` and
`from_jsonld`). -/
def Crate.WellTagged (c : Crate) : Prop :=
  (∀ e ∈ c.default_entities, e.variant = .defaultE) ∧
  (∀ e ∈ c.data_entities, e.variant = .dataE) ∧
  (∀ e ∈ c.contextual_entities, e.variant = .contextualE)

instance (c : Crate) : Decidable c.WellTagged := by
  unfold Crate.WellTagged
  infer_instance

/-- The `EntityError` produced by an entity's check, if any. -/
def entityErrOf (checkF : EntityData → Except PyErr Unit) (e : EntityData) :
    Option EntityErr :=
  match checkF e with
  | .error (.entityError err) => some err
  | _ => none

/-- Whether an entity's check stays inside the recognized taxonomy: it
either succeeds or raises an `EntityError` (spec section 7: anything else
aborts the whole operation). -/
def onlyEntityErrorsB (checkF : EntityData → Except PyErr Unit)
    (e : EntityData) : Bool :=
  match checkF e with
  | .ok () => true
  | .error (.entityError _) => true
  | .error _ => false

/-- The first exception outside the `EntityError` taxonomy raised by the
per-entity checks along the entity sequence, if any: the exception that the
`except Exception as e: raise e` arm of `ROCrate.check_props` /
`ROCrate.validate` (ro_crate.py lines 245-246 and 258-259) re-raises,
aborting the pass at that entity. -/
def firstPropagatedError (checkF : EntityData → Except PyErr Unit) :
    List EntityData → Option PyErr
  | [] => none
  | e :: rest =>
    match checkF e with
    | .ok () => firstPropagatedError checkF rest
    | .error (.entityError _) => firstPropagatedError checkF rest
    | .error other => some other

/-- The `(id, type, domain)` identity triples of a crate's entities. -/
def Crate.triples (c : Crate) : List (String × String × String) :=
  c.all_entities.map (fun e => (e.id, e.type, e.schemaName))

/-- An entity's property bag up to reference collapse: the observation under
which the round-trip claim compares property values (a property holding an
entity reference is compared through the referenced entity's id). -/
def EntityData.obsProps (e : EntityData) : List (String × PropValue) :=
  e.props.map collapseKV

/-- A decoded schema entity as reconstructed by the round trip: same
identity and class, property bag passed through reference collapse. -/
def reDecode (e : EntityData) : EntityData :=
  { e with props := e.props.map collapseKV }

/-! ## Concrete instances used by the claim witnesses and evaluations -/

/-- A `datetime.date.fromisoformat` stand-in that treats every string as an
invalid date (never consulted on the inputs below, which carry no date
properties). -/
def iso0 : String → Option Int := fun _ => none

/-- A concrete schema-module table mirroring the repository's
`nii_dg/schema/` directory. -/
def regW : String → Option (List String)
  | "amed" => some ["DMPMetadata", "DMP", "File", "ClinicalResearchRegistration"]
  | "cao" => some ["DMPMetadata", "DMP", "Person", "File"]
  | "base" => some ["RootDataEntity", "File", "Person"]
  | _ => none

/-- A concrete entity-kind resolver for the `cao` domain. -/
def resolveW : String → String → Option Variant
  | "cao", "File" => some .dataE
  | "cao", "Person" => some .contextualE
  | "cao", "DMP" => some .contextualE
  | "cao", "DMPMetadata" => some .contextualE
  | _, _ => none

/-- A per-entity structure check that always succeeds. -/
def checkAllOk : EntityData → Except PyErr Unit := fun _ => .ok ()

/-- An `amed` `DMP` entity carrying two independent governance violations:
`accessRights` is `"Unshared"` with neither `availabilityStarts` nor
`accessRightsInfo`, and `gotInformedConsent` is `"yes"` without
`informedConsentFormat`. -/
def dmpAmed3 : EntityData :=
  ⟨"#dmp:1", "DMP", "amed", .contextualE,
    [("dataNumber", .single (.snum 1)), ("accessRights", pvStr "Unshared"),
     ("gotInformedConsent", pvStr "yes")]⟩

/-- A second `amed` `DMP` entity with the same two independent governance
violations as `dmpAmed3`, under the id `#dmp:2`. -/
def dmpAmed3b : EntityData :=
  ⟨"#dmp:2", "DMP", "amed", .contextualE,
    [("dataNumber", .single (.snum 2)), ("accessRights", pvStr "Unshared"),
     ("gotInformedConsent", pvStr "yes")]⟩

/-- A crate holding two violating `amed` `DMP` entities. -/
def crateC2amed : Crate :=
  { Crate.init with contextual_entities := [dmpAmed3, dmpAmed3b] }

/-- The dynamic dispatch `entity.validate(self)` performed by
`ROCrate.validate` on `crateC2amed`: the `amed` `DMP` entities run
`amed.DMP.validate`; the two fixed base entities (whose classes live in the
absent `nii_dg/entity.py`) are modelled from the spec as raising nothing. -/
def amedDispatchC2 : EntityData → Except PyErr Unit := fun e =>
  if e.schemaName = "amed" ∧ e.type = "DMP" then
    amed_DMP_validate iso0 0 crateC2amed e
  else .ok ()

/-- A `cao` `DMPMetadata` entity carrying `repository` and `distribution`. -/
def caoMeta3 : EntityData :=
  ⟨"#CAO-DMP", "DMPMetadata", "cao", .contextualE,
    [("name", pvStr "CAO-DMP"),
     ("repository", .single (.sref "https://repository.example.com")),
     ("distribution", .single (.sref "https://example.com/download"))]⟩

/-- A `cao` `DMP` entity carrying two independent governance violations:
`accessRights` is `"open access"` with neither `isAccessibleForFree` nor
`license`. -/
def dmpCao3 : EntityData :=
  ⟨"#dmp:1", "DMP", "cao", .contextualE,
    [("dataNumber", .single (.snum 1)), ("accessRights", pvStr "open access")]⟩

/-- A crate holding the `cao` `DMPMetadata` entity. -/
def crateCao3 : Crate :=
  { Crate.init with contextual_entities := [caoMeta3] }

/-- An `amed` `DMPMetadata` entity listing `#dmp:1` in `hasPart`. -/
def amedMeta5 : EntityData :=
  ⟨"#AMED-DMP", "DMPMetadata", "amed", .contextualE,
    [("name", pvStr "AMED-DMP"), ("hasPart", .vlist [.sref "#dmp:1"])]⟩

/-- An `amed` `DMP` entity declaring the bound `contentSize = "100GB"` and
satisfying every earlier governance rule. -/
def dmpAmed5 : EntityData :=
  ⟨"#dmp:1", "DMP", "amed", .contextualE,
    [("dataNumber", .single (.snum 1)),
     ("accessRights", pvStr "Unrestricted Open Sharing"),
     ("gotInformedConsent", pvStr "no"),
     ("repository", .single (.sref "https://repository.example.com")),
     ("distribution", .single (.sref "https://example.com/download")),
     ("contentSize", pvStr "100GB")]⟩

def fileAmed60 : EntityData :=
  ⟨"data/a.dat", "File", "amed", .dataE, [("contentSize", pvStr "60GB")]⟩

def fileAmed40 : EntityData :=
  ⟨"data/b.dat", "File", "amed", .dataE, [("contentSize", pvStr "40GB")]⟩

/-- A crate whose `amed` `File` entities total exactly 100 (GB), governed by
the bound `"100GB"` of `dmpAmed5`. -/
def crateAmed5 : Crate :=
  { Crate.init with
      data_entities := [fileAmed60, fileAmed40],
      contextual_entities := [amedMeta5, dmpAmed5] }

/-- A `cao` `DMPMetadata` entity carrying `repository`. -/
def caoMeta5 : EntityData :=
  ⟨"#CAO-DMP", "DMPMetadata", "cao", .contextualE,
    [("name", pvStr "CAO-DMP"),
     ("repository", .single (.sref "https://repository.example.com"))]⟩

/-- A `cao` `DMP` entity declaring the bound `contentSize = "100GB"`. -/
def dmpCao5 : EntityData :=
  ⟨"#dmp:1", "DMP", "cao", .contextualE,
    [("dataNumber", .single (.snum 1)),
     ("accessRights", pvStr "metadata only access"),
     ("contentSize", pvStr "100GB")]⟩

/-- A `cao` `DMP` entity declaring the sentinel bound `"over100GB"`. -/
def dmpCaoOver100 : EntityData :=
  ⟨"#dmp:1", "DMP", "cao", .contextualE,
    [("dataNumber", .single (.snum 1)),
     ("accessRights", pvStr "metadata only access"),
     ("contentSize", pvStr "over100GB")]⟩

def fileCao60 : EntityData :=
  ⟨"data/a.dat", "File", "cao", .dataE, [("contentSize", pvStr "60GB")]⟩

def fileCao40 : EntityData :=
  ⟨"data/b.dat", "File", "cao", .dataE, [("contentSize", pvStr "40GB")]⟩

def fileCao41 : EntityData :=
  ⟨"data/c.dat", "File", "cao", .dataE, [("contentSize", pvStr "41GB")]⟩

def fileCao39 : EntityData :=
  ⟨"data/d.dat", "File", "cao", .dataE, [("contentSize", pvStr "39GB")]⟩

/-- `cao` files totalling exactly the declared bound (100). -/
def crateCaoEq : Crate :=
  { Crate.init with
      data_entities := [fileCao60, fileCao40],
      contextual_entities := [caoMeta5, dmpCao5] }

/-- `cao` files totalling one unit over the declared bound (101). -/
def crateCaoOver : Crate :=
  { Crate.init with
      data_entities := [fileCao60, fileCao41],
      contextual_entities := [caoMeta5, dmpCao5] }

/-- `cao` files totalling 99 under the sentinel bound `"over100GB"`. -/
def crateCaoUnder : Crate :=
  { Crate.init with
      data_entities := [fileCao60, fileCao39],
      contextual_entities := [caoMeta5, dmpCaoOver100] }

/-- A data entity used by the `remove` witness. -/
def fileW9 : EntityData :=
  ⟨"data/file.txt", "File", "base", .dataE, [("name", pvStr "f")]⟩

/-- A crate holding one removable data entity. -/
def crateW9 : Crate :=
  { Crate.init with data_entities := [fileW9] }

def failEnt1 : EntityData := ⟨"#e1", "Thing", "base", .contextualE, []⟩

def failEnt2 : EntityData := ⟨"#e2", "Thing", "base", .contextualE, []⟩

/-- A crate holding two entities whose structure checks fail. -/
def crateW2 : Crate :=
  { Crate.init with contextual_entities := [failEnt1, failEnt2] }

/-- A per-entity check failing with an `EntityError` on `#e1` and `#e2`. -/
def checkFW : EntityData → Except PyErr Unit := fun e =>
  if e.id = "#e1" then .error (.entityError ⟨e, [("name", "required")]⟩)
  else if e.id = "#e2" then .error (.entityError ⟨e, [("url", "invalid")]⟩)
  else .ok ()

/-- The root entity of the round-trip witness crate: `hasPart` holds the
live reference to the single data entity. -/
def rootW1 : EntityData :=
  ⟨"./", "Dataset", "base", .defaultE,
    [("name", pvStr "example research project"),
     ("hasPart", .vlist [.sref "file_1.txt"])]⟩

/-- The metadata descriptor of the round-trip witness crate. -/
def metaW1 : EntityData :=
  ⟨"ro-crate-metadata.json", "CreativeWork", "base", .defaultE,
    [("conformsTo", .single (.sidObj "https://w3id.org/ro/crate/1.1"))]⟩

/-- A `cao` data entity of the round-trip witness crate. -/
def fileW1 : EntityData :=
  ⟨"file_1.txt", "File", "cao", .dataE,
    [("name", pvStr "Sample File"), ("contentSize", pvStr "156GB"),
     ("dmpDataNumber", .single (.sref "#dmp:1"))]⟩

/-- A `cao` contextual entity of the round-trip witness crate. -/
def personW1 : EntityData :=
  ⟨"https://example.com/person", "Person", "cao", .contextualE,
    [("name", pvStr "Ichiro Suzuki")]⟩

/-- The round-trip witness crate. -/
def crateW1 : Crate :=
  ⟨[rootW1, metaW1], [fileW1], [personW1], rootW1⟩

/-! # Theorems -/

/-! ## Heap-model invariant lemmas -/

theorem applyOp_addr_eq (s : RCState) (op : RCOp) :
    (s.applyOp op).rootHasPart = s.rootHasPart ∧
    (s.applyOp op).dataAddr = s.dataAddr := by
  cases op with
  | addOp e => cases h : e.variant <;> simp [RCState.applyOp, h]
  | removeOp e =>
    simp only [RCState.applyOp]
    split
    · exact ⟨rfl, rfl⟩
    · cases h : e.variant <;> simp [h]

theorem foldl_applyOp_addr_eq (ops : List RCOp) (s : RCState) :
    (ops.foldl RCState.applyOp s).rootHasPart = s.rootHasPart ∧
    (ops.foldl RCState.applyOp s).dataAddr = s.dataAddr := by
  induction ops generalizing s with
  | nil => exact ⟨rfl, rfl⟩
  | cons op rest ih =>
    simp only [List.foldl_cons]
    have h := applyOp_addr_eq s op
    have h2 := ih (s.applyOp op)
    exact ⟨h2.1.trans h.1, h2.2.trans h.2⟩

/-- **C10.** After constructing an `ROCrate` without a JSON-LD document and
after any sequence of `add` and `remove` operations, the reference stored in
the root entity's `"hasPart"` slot is still the `data_entities` list object
itself (it is never reassigned after `__init__`), so `root["hasPart"]`
observes exactly the current list of data entities. -/
theorem c10_hasPart_is_data_entities_alias (ops : List RCOp) :
    ((ops.foldl RCState.applyOp RCState.initState).rootHasPart
      = (ops.foldl RCState.applyOp RCState.initState).dataAddr) ∧
    ((ops.foldl RCState.applyOp RCState.initState).rootHasPart
      = RCState.initState.rootHasPart) ∧
    ((ops.foldl RCState.applyOp RCState.initState).heap.get
        (ops.foldl RCState.applyOp RCState.initState).rootHasPart
      = (ops.foldl RCState.applyOp RCState.initState).heap.get
        (ops.foldl RCState.applyOp RCState.initState).dataAddr) := by
  have h := foldl_applyOp_addr_eq ops RCState.initState
  refine ⟨?_, h.1, ?_⟩
  · rw [h.1, h.2]; rfl
  · rw [h.1, h.2]; rfl

/-! ## Removal -/

/-- **C9.** For every entity `e` and graph (with correctly tagged
sequences), `ROCrate.remove(e)` raises exactly when `e` is absent from the
graph's entities or `e` is a member of the always-present
(`DefaultEntity`) sequence; otherwise it removes one occurrence of `e` from
its sequence and leaves every other entity of the graph unchanged. -/
theorem c9_remove_spec (c : Crate) (e : EntityData) (h : c.WellTagged) :
    ((∃ err, c.removeOne e = .error err) ↔
      (e ∉ c.all_entities ∨ e ∈ c.default_entities)) ∧
    (∀ c', c.removeOne e = .ok c' →
      c'.all_entities.count e + 1 = c.all_entities.count e ∧
      (∀ x, x ≠ e → c'.all_entities.count x = c.all_entities.count x)) := by
  obtain ⟨hdef, hdata, hctx⟩ := h
  by_cases hmem : e ∈ c.all_entities
  · have hsplit : e ∈ c.default_entities ∨ e ∈ c.data_entities ∨ e ∈ c.contextual_entities := by
      have := hmem
      unfold Crate.all_entities at this
      rcases List.mem_append.mp this with h1 | h2
      · rcases List.mem_append.mp h1 with ha | hb
        · exact .inl ha
        · exact .inr (.inl hb)
      · exact .inr (.inr h2)
    rcases hv : e.variant with _ | _ | _ | _
    · -- DefaultEntity: raises ValueError
      have hedef : e ∈ c.default_entities := by
        rcases hsplit with h1 | h2 | h3
        · exact h1
        · exact absurd (hdata e h2) (by rw [hv]; intro hc; cases hc)
        · exact absurd (hctx e h3) (by rw [hv]; intro hc; cases hc)
      constructor
      · constructor
        · intro _; exact .inr hedef
        · intro _
          refine ⟨.valueError ("Entity " ++ entityRepr e ++ " is a DefaultEntity and cannot be removed."), ?_⟩
          simp [Crate.removeOne, hmem, hv]
      · intro c' hc'
        simp [Crate.removeOne, hmem, hv] at hc'
    · -- DataEntity: removed from data_entities
      have hedata : e ∈ c.data_entities := by
        rcases hsplit with h1 | h2 | h3
        · exact absurd (hdef e h1) (by rw [hv]; intro hc; cases hc)
        · exact h2
        · exact absurd (hctx e h3) (by rw [hv]; intro hc; cases hc)
      have hok : c.removeOne e = .ok { c with data_entities := c.data_entities.erase e } := by
        simp [Crate.removeOne, hmem, hv]
      constructor
      · constructor
        · rintro ⟨err, herr⟩
          rw [hok] at herr
          cases herr
        · rintro (habs | hd)
          · exact absurd hmem habs
          · exact absurd (hdef e hd) (by rw [hv]; intro hc; cases hc)
      · intro c' hc'
        rw [hok] at hc'
        cases hc'
        have hcount : 0 < c.data_entities.count e := List.count_pos_iff.mpr hedata
        constructor
        · simp only [Crate.all_entities, List.count_append, List.count_erase_self]
          omega
        · intro x hx
          simp only [Crate.all_entities, List.count_append,
            List.count_erase_of_ne hx]
    · -- ContextualEntity: removed from contextual_entities
      have hectx : e ∈ c.contextual_entities := by
        rcases hsplit with h1 | h2 | h3
        · exact absurd (hdef e h1) (by rw [hv]; intro hc; cases hc)
        · exact absurd (hdata e h2) (by rw [hv]; intro hc; cases hc)
        · exact h3
      have hok : c.removeOne e = .ok { c with contextual_entities := c.contextual_entities.erase e } := by
        simp [Crate.removeOne, hmem, hv]
      constructor
      · constructor
        · rintro ⟨err, herr⟩
          rw [hok] at herr
          cases herr
        · rintro (habs | hd)
          · exact absurd hmem habs
          · exact absurd (hdef e hd) (by rw [hv]; intro hc; cases hc)
      · intro c' hc'
        rw [hok] at hc'
        cases hc'
        have hcount : 0 < c.contextual_entities.count e := List.count_pos_iff.mpr hectx
        constructor
        · simp only [Crate.all_entities, List.count_append, List.count_erase_self]
          omega
        · intro x hx
          simp only [Crate.all_entities, List.count_append,
            List.count_erase_of_ne hx]
    · -- plain Entity: cannot occur in a well-tagged graph
      exfalso
      rcases hsplit with h1 | h2 | h3
      · exact absurd (hdef e h1) (by rw [hv]; intro hc; cases hc)
      · exact absurd (hdata e h2) (by rw [hv]; intro hc; cases hc)
      · exact absurd (hctx e h3) (by rw [hv]; intro hc; cases hc)
  · -- absent from the graph: raises ValueError
    constructor
    · constructor
      · intro _; exact .inl hmem
      · intro _
        refine ⟨.valueError ("Entity " ++ entityRepr e ++ " is not included in the RO-Crate."), ?_⟩
        simp [Crate.removeOne, hmem]
    · intro c' hc'
      simp [Crate.removeOne, hmem] at hc'

/-- Witness for C9: removing the one data entity of a concrete crate
succeeds and decrements exactly its count. -/
theorem c9_remove_spec_witness :
    Crate.WellTagged crateW9 ∧
    (((∃ err, crateW9.removeOne fileW9 = .error err) ↔
      (fileW9 ∉ crateW9.all_entities ∨ fileW9 ∈ crateW9.default_entities)) ∧
    (∀ c', crateW9.removeOne fileW9 = .ok c' →
      c'.all_entities.count fileW9 + 1 = crateW9.all_entities.count fileW9 ∧
      (∀ x, x ≠ fileW9 → c'.all_entities.count x = crateW9.all_entities.count x))) :=
  ⟨by decide, c9_remove_spec crateW9 fileW9 (by decide)⟩

/-! ## Duplicate detection -/

theorem nodup_pairs_iff (c : Crate) :
    (c.all_entities.map (fun e => (e.id, e.context))).Nodup ↔
      ∀ i j : Fin c.all_entities.length, i ≠ j →
        (c.all_entities.get i).id = (c.all_entities.get j).id →
        (c.all_entities.get i).context ≠ (c.all_entities.get j).context := by
  rw [List.Nodup, List.pairwise_map, List.pairwise_iff_get]
  constructor
  · intro h i j hne hid hctx
    rcases Nat.lt_or_ge i.1 j.1 with hlt | hge
    · exact h i j (Fin.lt_def.mpr hlt) (by rw [hid, hctx])
    · have hlt2 : j.1 < i.1 := by
        rcases Nat.lt_or_ge j.1 i.1 with h2 | h2
        · exact h2
        · exact absurd (Fin.ext (Nat.le_antisymm hge h2)) (Ne.symm hne)
      exact h j i (Fin.lt_def.mpr hlt2) (by rw [hid, hctx])
  · intro h i j hij heq
    have hid : (c.all_entities.get i).id = (c.all_entities.get j).id :=
      congrArg Prod.fst heq
    have hctx : (c.all_entities.get i).context = (c.all_entities.get j).context :=
      congrArg Prod.snd heq
    exact h i j (Fin.ne_of_lt hij) hid hctx

theorem countProd_eq (p : String × Ctx) (l : List (String × Ctx)) :
    @List.count _ instBEqProd p l = @List.count _ instBEqOfDecidableEq p l := by
  unfold List.count
  apply List.countP_congr
  intro x _
  rw [Bool.eq_iff_iff]
  simp only [beq_iff_eq, instBEqOfDecidableEq, decide_eq_true_eq, iff_true]

theorem dup_filter_pos_iff (c : Crate) :
    (0 < ((c.all_entities.map (fun e => (e.id, e.context))).filter
        (fun p => 1 < (c.all_entities.map (fun e => (e.id, e.context))).count p)).length) ↔
      ¬ (c.all_entities.map (fun e => (e.id, e.context))).Nodup := by
  rw [List.nodup_iff_count_le_one]
  push_neg
  simp only [← countProd_eq]
  constructor
  · intro h
    have hne : ((c.all_entities.map (fun e => (e.id, e.context))).filter
        (fun p => 1 < (c.all_entities.map (fun e => (e.id, e.context))).count p)) ≠ [] := by
      intro hnil
      rw [hnil] at h
      exact absurd h (by simp)
    obtain ⟨p, hp⟩ := List.exists_mem_of_ne_nil _ hne
    have := List.mem_filter.mp hp
    exact ⟨p, by simpa using this.2⟩
  · rintro ⟨p, hp⟩
    have hmem : p ∈ c.all_entities.map (fun e => (e.id, e.context)) := by
      by_contra hno
      rw [List.count_eq_zero_of_not_mem hno] at hp
      omega
    have hpin : p ∈ (c.all_entities.map (fun e => (e.id, e.context))).filter
        (fun q => 1 < (c.all_entities.map (fun e => (e.id, e.context))).count q) :=
      List.mem_filter.mpr ⟨hmem, by simpa using hp⟩
    exact List.length_pos.mpr (List.ne_nil_of_mem hpin)

/-- **C4.** `check_duplicate_entity` raises a `CrateError` if and only if two
distinct entities of the graph share both the same id and the same context;
in particular it returns without error for every graph in which any two
entities sharing an id have different contexts. -/
theorem c4_check_duplicate_entity_iff (c : Crate) :
    ((∃ msg, c.check_duplicate_entity = .error (.crateError msg)) ↔
      ∃ i j : Fin c.all_entities.length, i ≠ j ∧
        (c.all_entities.get i).id = (c.all_entities.get j).id ∧
        (c.all_entities.get i).context = (c.all_entities.get j).context) ∧
    (c.check_duplicate_entity = .ok () ↔
      ∀ i j : Fin c.all_entities.length, i ≠ j →
        (c.all_entities.get i).id = (c.all_entities.get j).id →
        (c.all_entities.get i).context ≠ (c.all_entities.get j).context) := by
  have hexists : (∃ i j : Fin c.all_entities.length, i ≠ j ∧
      (c.all_entities.get i).id = (c.all_entities.get j).id ∧
      (c.all_entities.get i).context = (c.all_entities.get j).context) ↔
      ¬ (c.all_entities.map (fun e => (e.id, e.context))).Nodup := by
    rw [nodup_pairs_iff c]
    push_neg
    constructor
    · rintro ⟨i, j, h1, h2, h3⟩
      exact ⟨i, j, h1, h2, h3⟩
    · rintro ⟨i, j, h1, h2, h3⟩
      exact ⟨i, j, h1, h2, h3⟩
  constructor
  · rw [hexists, ← dup_filter_pos_iff c]
    simp only [Crate.check_duplicate_entity]
    split
    · rename_i hcond
      constructor
      · intro _; exact hcond
      · intro _; exact ⟨_, rfl⟩
    · rename_i hcond
      constructor
      · rintro ⟨msg, hmsg⟩
        cases hmsg
      · intro h; exact absurd h hcond
  · rw [← nodup_pairs_iff c]
    simp only [Crate.check_duplicate_entity]
    split
    · rename_i hcond
      constructor
      · intro h; cases h
      · intro h
        exact absurd ((dup_filter_pos_iff c).mp hcond) (by simpa using h)
    · rename_i hcond
      constructor
      · intro _
        by_contra hnd
        exact hcond ((dup_filter_pos_iff c).mpr hnd)
      · intro _; rfl

/-! ## Aggregate structure check and validation -/

theorem collectEntityErrors_eq (checkF : EntityData → Except PyErr Unit) :
    ∀ (es : List EntityData) (acc : List EntityErr),
      (∀ e ∈ es, onlyEntityErrorsB checkF e = true) →
      collectEntityErrors checkF es acc =
        .ok (acc ++ es.filterMap (entityErrOf checkF)) := by
  intro es
  induction es with
  | nil => intro acc _; simp [collectEntityErrors]
  | cons e rest ih =>
    intro acc h
    have he := h e (List.mem_cons_self e rest)
    have hrest : ∀ x ∈ rest, onlyEntityErrorsB checkF x = true :=
      fun x hx => h x (List.mem_cons_of_mem e hx)
    unfold onlyEntityErrorsB at he
    simp only [collectEntityErrors]
    rcases hc : checkF e with err | u
    · rcases err with m | es' | es' | ee | m | m | m | m | m
      · simp [hc] at he
      · simp [hc] at he
      · simp [hc] at he
      · show collectEntityErrors checkF rest (acc ++ [ee]) = _
        rw [ih (acc ++ [ee]) hrest]
        simp [List.filterMap_cons, entityErrOf, hc, List.append_assoc]
      · simp [hc] at he
      · simp [hc] at he
      · simp [hc] at he
      · simp [hc] at he
      · simp [hc] at he
    · cases u
      show collectEntityErrors checkF rest acc = _
      rw [ih acc hrest]
      simp [List.filterMap_cons, entityErrOf, hc]

/-- **C2 counterexample.** As stated the claim is false on the code: on a
crate holding two `amed` `DMP` entities that each violate a governance rule,
one `ROCrate.validate` invocation raises the bare `GovernanceError` of the
first failing entity (re-raised by the `except Exception` arm, ro_crate.py
lines 258-259) — neither silence nor a `CrateValidationError` aggregate —
even though the second entity fails independently (its own violation shown
in the second conjunct) and is never reported. -/
theorem c2_counterexample_first_error_propagates :
    Crate.validate amedDispatchC2 crateC2amed =
      .error (.governanceError ("An availabilityStarts property is required in "
        ++ entityRepr dmpAmed3
        ++ ". If you keep data unshared, ab accessRightsInfo property is required instead.")) ∧
    amedDispatchC2 dmpAmed3b =
      .error (.governanceError ("An availabilityStarts property is required in "
        ++ entityRepr dmpAmed3b
        ++ ". If you keep data unshared, ab accessRightsInfo property is required instead.")) :=
  ⟨rfl, rfl⟩

theorem collectEntityErrors_characterization
    (checkF : EntityData → Except PyErr Unit) :
    ∀ (es : List EntityData) (acc : List EntityErr),
      collectEntityErrors checkF es acc =
        match firstPropagatedError checkF es with
        | some err => .error err
        | none => .ok (acc ++ es.filterMap (entityErrOf checkF)) := by
  intro es
  induction es with
  | nil => intro acc; simp [collectEntityErrors, firstPropagatedError]
  | cons e rest ih =>
    intro acc
    simp only [collectEntityErrors, firstPropagatedError]
    rcases hc : checkF e with err | u
    · rcases err with m | es' | es' | ee | m | m | m | m | m
      · rfl
      · rfl
      · rfl
      · show collectEntityErrors checkF rest (acc ++ [ee]) = _
        rw [ih (acc ++ [ee])]
        rcases hfp : firstPropagatedError checkF rest with _ | err2
        · simp [List.filterMap_cons, entityErrOf, hc, List.append_assoc]
        · simp
      · rfl
      · rfl
      · rfl
      · rfl
      · rfl
    · cases u
      show collectEntityErrors checkF rest acc = _
      rw [ih acc]
      rcases hfp : firstPropagatedError checkF rest with _ | err2
      · simp [List.filterMap_cons, entityErrOf, hc]
      · simp

/-- **C2 (amended).** One invocation of the graph-wide structure check
(`ROCrate.check_props`, run by `as_jsonld`) or of `ROCrate.validate` either
returns with no exception, or raises exactly one aggregate error object
(`CrateCheckPropsError` / `CrateValidationError`) holding the `EntityError`
of every entity that failed with an `EntityError` in that pass, or — when
some entity's check raises an exception that is not an `EntityError`, as the
`amed`/`cao` structural checks (bare `PropsError`) and the `amed` governance
rules (bare `GovernanceError`) do — re-raises the first such exception
immediately, evaluating no later entity. -/
theorem c2_aggregate_or_first_propagated
    (checkF validateF : EntityData → Except PyErr Unit) (c : Crate) :
    (c.check_props checkF =
      match firstPropagatedError checkF c.all_entities with
      | some err => .error err
      | none =>
        if c.all_entities.filterMap (entityErrOf checkF) = [] then .ok ()
        else .error (.checkPropsError (c.all_entities.filterMap (entityErrOf checkF)))) ∧
    (c.validate validateF =
      match firstPropagatedError validateF c.all_entities with
      | some err => .error err
      | none =>
        if c.all_entities.filterMap (entityErrOf validateF) = [] then .ok ()
        else .error (.validationError (c.all_entities.filterMap (entityErrOf validateF)))) := by
  constructor
  · unfold Crate.check_props
    rw [collectEntityErrors_characterization checkF c.all_entities []]
    rcases hfp : firstPropagatedError checkF c.all_entities with _ | err
    · simp only [List.nil_append]
      rcases hfm : c.all_entities.filterMap (entityErrOf checkF) with _ | ⟨x, xs⟩ <;> simp
    · rfl
  · unfold Crate.validate
    rw [collectEntityErrors_characterization validateF c.all_entities []]
    rcases hfp : firstPropagatedError validateF c.all_entities with _ | err
    · simp only [List.nil_append]
      rcases hfm : c.all_entities.filterMap (entityErrOf validateF) with _ | ⟨x, xs⟩ <;> simp
    · rfl

/-! ## The type-expression interpreter on concrete and bare inputs -/

/-- **C7** (code bug).  `convert_string_type_to_python_type` converts the
inner expression of `"Optional[str]"` fine, but the `Optional[` branch
(utils.py line 101) slices `type_str[5:-1]` — five characters instead of the
nine of `"Optional["` — so the recursive call receives `"nal[str"` and the
conversion always raises `PropsError` instead of returning `Optional[str]`. -/
theorem c7_optional_slice_bug (registry : String → Option (List String)) :
    convert_string_type_to_python_type registry "str" none = .ok .pstr ∧
    convert_string_type_to_python_type registry "Optional[str]" none =
      .error (.propsError "Unexpected type: nal[str") := by
  constructor
  · unfold convert_string_type_to_python_type
    rw [convertChars.eq_def]
    rfl
  · unfold convert_string_type_to_python_type
    rw [convertChars.eq_def]
    show (convertChars registry "nal[str".data none).map PType.poptional = _
    rw [convertChars.eq_def]
    rfl

/-! ## Governance accumulation (amed vs cao) -/

/-- **C3** (code bug).  `amed.DMP.validate` raises a `GovernanceError` at
the first violated rule, never reaching the remaining branches: `dmpAmed3`
violates both the `availabilityStarts`/`accessRightsInfo` rule and the
`informedConsentFormat` rule, yet only the first is reported.
`cao.DMP.validate`, by contrast, accumulates both of the analogous
violations of `dmpCao3` in one `EntityError`. -/
theorem c3_amed_validate_short_circuits :
    (amed_DMP_validate iso0 0 Crate.init dmpAmed3 =
      .error (.governanceError ("An availabilityStarts property is required in "
        ++ entityRepr dmpAmed3
        ++ ". If you keep data unshared, ab accessRightsInfo property is required instead."))) ∧
    (dictGet dmpAmed3.props "gotInformedConsent" = some (pvStr "yes") ∧
      hasProp dmpAmed3 "informedConsentFormat" = false) ∧
    (cao_DMP_validate crateCao3 dmpCao3 =
      .error (.entityError ⟨dmpCao3,
        [("isAccessibleForFree", "This property is required, but not found."),
         ("license", "This property is required, but not found.")]⟩)) := by
  exact ⟨rfl, ⟨rfl, rfl⟩, rfl⟩

/-! ## The contentSize bound -/

/-- **C5** (code bug).  With the governed `amed` files summing exactly to
the declared bound `"100GB"`, `amed.DMP.validate` raises `ValueError`
instead of passing, because amed.py line 135 computes
`int(self["contentSize"])` on the whole string `"100GB"` (its cao
counterpart slices off the unit with `[:-2]`).  The cao rule behaves as the
claim states: it passes at the exact bound, cites `contentSize` one unit
over the bound, and raises for the sentinel `"over100GB"` with a sum under
100. -/
theorem c5_contentSize_bound_behavior :
    (amed_DMP_validate iso0 0 crateAmed5 dmpAmed5 =
      .error (.valueError "invalid literal for int with base 10: 100GB")) ∧
    (sum_file_size "GB" crateAmed5 "amed" "File" = 100) ∧
    (cao_DMP_validate crateCaoEq dmpCao5 = .ok ()) ∧
    (sum_file_size "GB" crateCaoOver "cao" "File" = 101) ∧
    (cao_DMP_validate crateCaoOver dmpCao5 =
      .error (.entityError ⟨dmpCao5,
        [("contentSize", "The total file size included in this DMP is larger than the defined size.")]⟩)) ∧
    (sum_file_size "GB" crateCaoUnder "cao" "File" = 99) ∧
    (cao_DMP_validate crateCaoUnder dmpCaoOver100 =
      .error (.entityError ⟨dmpCaoOver100,
        [("contentSize", "The total file size included in this DMP is smaller than 100GB.")]⟩)) := by
  exact ⟨rfl, rfl, rfl, rfl, rfl, rfl, rfl⟩

/-! ## Entity-kind name resolution order -/

theorem strHead_subset {p l : List Char} (h : strHead p l = true) :
    ∀ c ∈ p, c ∈ l := by
  intro c hc
  have ht : l.take p.length = p := by simpa [strHead] using h
  exact List.take_subset p.length l (by rw [ht]; exact hc)

/-- **C6.** For a bare entity-kind name (no primitive keyword, no bracket),
`convert_string_type_to_python_type` looks the name up in the owning
domain's schema module first and, only when that lookup raises and the
domain is not `"base"`, in the base schema module; the first successful
lookup is returned, and when both fail the conversion raises a `PropsError`
whose message contains the exact unresolved name. -/
theorem c6_bare_name_resolution_order (registry : String → Option (List String))
    (ts : String) (schemaName : Option String)
    (h1 : ts.data ≠ "bool".data) (h2 : ts.data ≠ "str".data)
    (h3 : ts.data ≠ "int".data) (h4 : ts.data ≠ "float".data)
    (h5 : ts.data ≠ "Any".data) (hbr : '[' ∉ ts.data) :
    (∀ cls, import_entity_class registry (schemaName.getD "base") ts = .ok cls →
      convert_string_type_to_python_type registry ts schemaName = .ok (.pentity cls)) ∧
    (∀ msg cls, import_entity_class registry (schemaName.getD "base") ts = .error msg →
      schemaName.getD "base" ≠ "base" →
      import_entity_class registry "base" ts = .ok cls →
      convert_string_type_to_python_type registry ts schemaName = .ok (.pentity cls)) ∧
    ((∃ msg, import_entity_class registry (schemaName.getD "base") ts = .error msg) →
      (schemaName.getD "base" = "base" ∨
        ∃ msg2, import_entity_class registry "base" ts = .error msg2) →
      (convert_string_type_to_python_type registry ts schemaName =
        .error (.propsError ("Unexpected type: " ++ ts)) ∧
       ∃ pre post, "Unexpected type: " ++ ts = pre ++ ts ++ post)) := by
  have hnL : ¬ strHead "List[".data ts.data = true :=
    fun h => hbr (strHead_subset h '[' (by decide))
  have hnU : ¬ strHead "Union[".data ts.data = true :=
    fun h => hbr (strHead_subset h '[' (by decide))
  have hnO : ¬ strHead "Optional[".data ts.data = true :=
    fun h => hbr (strHead_subset h '[' (by decide))
  have hnLit : ¬ strHead "Literal[".data ts.data = true :=
    fun h => hbr (strHead_subset h '[' (by decide))
  have hany : ¬ (ts.data.any (fun c => c = '[')) = true := by
    simp only [List.any_eq_true, decide_eq_true_eq]
    rintro ⟨c, hcmem, hceq⟩
    exact hbr (hceq ▸ hcmem)
  have hmk : String.mk ts.data = ts := rfl
  have hconv : convert_string_type_to_python_type registry ts schemaName =
      (match import_entity_class registry (schemaName.getD "base") ts with
       | .ok cls => .ok (.pentity cls)
       | .error _ =>
         if schemaName.getD "base" ≠ "base" then
           match import_entity_class registry "base" ts with
           | .ok cls => .ok (.pentity cls)
           | .error _ => .error (.propsError ("Unexpected type: " ++ ts))
         else .error (.propsError ("Unexpected type: " ++ ts))) := by
    unfold convert_string_type_to_python_type
    rw [convertChars.eq_def]
    rw [if_neg h1, if_neg h2, if_neg h3, if_neg h4, if_neg h5,
      dif_neg hnL, dif_neg hnU, dif_neg hnO, if_neg hnLit, if_neg hany]
  refine ⟨?_, ?_, ?_⟩
  · intro cls hok
    rw [hconv, hok]
  · intro msg cls herr hne hok
    rw [hconv, herr]
    simp only [if_pos hne, hok]
  · rintro ⟨msg, herr⟩ hbase
    constructor
    · rw [hconv, herr]
      rcases hbase with hb | ⟨msg2, herr2⟩
      · rw [if_neg (by simpa using hb)]
      · by_cases hh : schemaName.getD "base" ≠ "base"
        · rw [if_pos hh, herr2]
        · rw [if_neg hh]
    · exact ⟨"Unexpected type: ", "", by simp⟩

/-- Witness for C6: with the concrete module table `regW`, the bare name
`"DMP"` under the `"amed"` domain resolves in the domain module first. -/
theorem c6_bare_name_resolution_order_witness :
    ("DMP".data ≠ "bool".data ∧ "DMP".data ≠ "str".data ∧
     "DMP".data ≠ "int".data ∧ "DMP".data ≠ "float".data ∧
     "DMP".data ≠ "Any".data ∧ '[' ∉ "DMP".data) ∧
    ((∀ cls, import_entity_class regW ((some "amed").getD "base") "DMP" = .ok cls →
      convert_string_type_to_python_type regW "DMP" (some "amed") = .ok (.pentity cls)) ∧
    (∀ msg cls, import_entity_class regW ((some "amed").getD "base") "DMP" = .error msg →
      (some "amed").getD "base" ≠ "base" →
      import_entity_class regW "base" "DMP" = .ok cls →
      convert_string_type_to_python_type regW "DMP" (some "amed") = .ok (.pentity cls)) ∧
    ((∃ msg, import_entity_class regW ((some "amed").getD "base") "DMP" = .error msg) →
      ((some "amed").getD "base" = "base" ∨
        ∃ msg2, import_entity_class regW "base" "DMP" = .error msg2) →
      (convert_string_type_to_python_type regW "DMP" (some "amed") =
        .error (.propsError ("Unexpected type: " ++ "DMP")) ∧
       ∃ pre post, "Unexpected type: " ++ "DMP" = pre ++ "DMP" ++ post))) :=
  ⟨⟨by decide, by decide, by decide, by decide, by decide, by decide⟩,
    c6_bare_name_resolution_order regW "DMP" (some "amed")
      (by decide) (by decide) (by decide) (by decide) (by decide) (by decide)⟩

/-! ## The size-string format -/

/-- **C8 counterexample.** As written the claim is false on the code:
`check_content_size` rejects the sentinel `"over100GB"` (its regular
expression `^\d+[KMGTP]?B$` demands a leading digit) and accepts the
unit-less `"10B"` (the unit letter is optional in `[KMGTP]?`). -/
theorem c8_counterexample :
    check_content_size "over100GB" = .error (.valueError "") ∧
    check_content_size "10B" = .ok () :=
  ⟨rfl, rfl⟩

theorem contentSizeMatch_iff (l : List Char) :
    contentSizeMatch l = true ↔
      ∃ ds u, l = ds ++ u ++ ['B'] ∧ ds ≠ [] ∧ (∀ c ∈ ds, c.isDigit) ∧
        (u = [] ∨ ∃ c ∈ sizeUnits, u = [c]) := by
  rcases List.eq_nil_or_concat' l with hnil | ⟨L, b, rfl⟩
  · subst hnil
    constructor
    · intro h
      simp [contentSizeMatch] at h
    · rintro ⟨ds, u, heq, -, -, -⟩
      exact absurd heq (by simp)
  · have hmatch : contentSizeMatch (L ++ [b]) =
        (if b = 'B' then
          (decide (L ≠ []) && L.all Char.isDigit) ||
            (match L.getLast? with
             | some u =>
               decide (u ∈ sizeUnits) && decide (L.dropLast ≠ []) &&
                 (L.dropLast).all Char.isDigit
             | none => false)
        else false) := by
      simp only [contentSizeMatch, List.getLast?_concat, List.dropLast_concat]
    rw [hmatch]
    by_cases hb : b = 'B'
    · subst hb
      rw [if_pos rfl]
      rcases List.eq_nil_or_concat' L with hnil2 | ⟨M, u, rfl⟩
      · subst hnil2
        constructor
        · intro h; simp at h
        · rintro ⟨ds, uu, heq, hne, -, -⟩
          have hlen := congrArg List.length heq
          simp only [List.length_append, List.length_cons, List.length_nil] at hlen
          have hds : ds.length = 0 := by omega
          exact absurd (List.eq_nil_of_length_eq_zero hds) hne
      · rw [List.getLast?_concat, List.dropLast_concat]
        constructor
        · intro h
          rcases Bool.or_eq_true_iff.mp h with hA | hB
          · refine ⟨M ++ [u], [], by simp, by simp, ?_, .inl rfl⟩
            intro c hc
            have := Bool.and_eq_true_iff.mp hA
            exact List.all_eq_true.mp this.2 c hc
          · obtain ⟨⟨hu, hMne⟩, hMdig⟩ :=
              by simpa [Bool.and_eq_true_iff] using hB
            refine ⟨M, [u], by simp, hMne, ?_, .inr ⟨u, hu, rfl⟩⟩
            intro c hc
            exact hMdig c hc
        · rintro ⟨ds, uu, heq, hne, hdig, hu⟩
          have heq2 : M ++ [u] = ds ++ uu :=
            List.append_cancel_right heq
          rcases hu with rfl | ⟨c, hcmem, rfl⟩
          · rw [List.append_nil] at heq2
            apply Bool.or_eq_true_iff.mpr
            left
            rw [heq2]
            simp only [Bool.and_eq_true_iff, decide_eq_true_eq, List.all_eq_true]
            exact ⟨hne, fun c hc => hdig c hc⟩
          · have hMds : M = ds ∧ u = c := by
              have h1 := congrArg List.dropLast heq2
              have h2 := congrArg List.getLast? heq2
              rw [List.dropLast_concat, List.dropLast_concat] at h1
              rw [List.getLast?_concat, List.getLast?_concat] at h2
              exact ⟨h1, Option.some_injective _ h2⟩
            obtain ⟨rfl, rfl⟩ := hMds
            apply Bool.or_eq_true_iff.mpr
            right
            simp only [Bool.and_eq_true_iff, decide_eq_true_eq, List.all_eq_true]
            exact ⟨⟨hcmem, hne⟩, fun x hx => hdig x hx⟩
    · rw [if_neg hb]
      constructor
      · intro h
        exact absurd h (by decide)
      · rintro ⟨ds, uu, heq, -, -, -⟩
        have h2 := congrArg List.getLast? heq
        rw [List.getLast?_concat, List.getLast?_concat] at h2
        exact absurd (Option.some_injective _ h2) hb

/-- **C8 (amended).** `check_content_size(value)` returns without error
exactly for strings of the form a nonempty digit run followed by a unit in
B, KB, MB, GB, TB, PB — i.e. the unit letter of the claim's set is
optional (plain-byte strings such as `"10B"` are accepted), and the
sentinel `"over100GB"` is not accepted but raises `ValueError` like every
other non-matching string. -/
theorem c8_check_content_size_characterization (s : String) :
    check_content_size s = .ok () ↔
      ∃ ds u, s.data = ds ++ u ++ ['B'] ∧ ds ≠ [] ∧ (∀ c ∈ ds, c.isDigit) ∧
        (u = [] ∨ ∃ c ∈ sizeUnits, u = [c]) := by
  rw [← contentSizeMatch_iff]
  unfold check_content_size
  split
  · rename_i h
    exact ⟨fun _ => h, fun _ => rfl⟩
  · rename_i h
    constructor
    · intro hc; cases hc
    · intro hc; exact absurd hc h

/-! ## Round trip: encode then decode -/

@[simp] theorem Scalar.collapse_collapse (v : Scalar) :
    v.collapse.collapse = v.collapse := by
  cases v <;> rfl

@[simp] theorem PropValue.collapse_idem (v : PropValue) :
    v.collapse.collapse = v.collapse := by
  cases v with
  | single s => simp [PropValue.collapse]
  | vlist vs =>
    simp only [PropValue.collapse, List.map_map]
    congr 1
    exact List.map_congr_left (fun s _ => Scalar.collapse_collapse s)

@[simp] theorem collapseKV_collapseKV (kv : String × PropValue) :
    collapseKV (collapseKV kv) = collapseKV kv := by
  simp [collapseKV]

theorem obsProps_reDecode (e : EntityData) :
    (reDecode e).obsProps = e.obsProps := by
  simp only [reDecode, EntityData.obsProps, List.map_map]
  exact List.map_congr_left (fun kv _ => collapseKV_collapseKV kv)

theorem hasPartValue_map_reDecode (data : List EntityData) :
    hasPartValue (data.map reDecode) = hasPartValue data := by
  simp [hasPartValue, List.map_map, reDecode]

theorem lookupAll_singleton_value {P : List (String × PropValue)} {k : String}
    {v : PropValue} (h : lookupAll P k = [v]) :
    ∀ kv ∈ P, kv.1 = k → kv.2 = v := by
  intro kv hkv hk
  have hmemf : kv ∈ P.filter (fun x => x.1 = k) :=
    List.mem_filter.mpr ⟨hkv, by simp [hk]⟩
  have : kv.2 ∈ lookupAll P k := List.mem_map_of_mem (·.2) hmemf
  rw [h] at this
  simpa using this

theorem lookupAll_nonempty_any {P : List (String × PropValue)} {k : String}
    {v : PropValue} (h : lookupAll P k = [v]) :
    P.any (fun kv => kv.1 = k) = true := by
  have hne : P.filter (fun x => x.1 = k) ≠ [] := by
    intro hnil
    rw [lookupAll, hnil] at h
    cases h
  obtain ⟨kv, hkv⟩ := List.exists_mem_of_ne_nil _ hne
  have hm := List.mem_filter.mp hkv
  exact List.any_eq_true.mpr ⟨kv, hm.1, hm.2⟩

theorem mapCollapse_dictSet {P : List (String × PropValue)} {k : String}
    {v : PropValue} (h : lookupAll P k = [v]) :
    (dictSet (P.map collapseKV) k v).map collapseKV = P.map collapseKV := by
  have hany : (P.map collapseKV).any (fun kv => kv.1 = k) = true := by
    rcases List.any_eq_true.mp (lookupAll_nonempty_any h) with ⟨kv, hkv, hk⟩
    exact List.any_eq_true.mpr ⟨collapseKV kv, List.mem_map_of_mem _ hkv, by
      simpa [collapseKV] using hk⟩
  unfold dictSet
  rw [if_pos hany]
  rw [List.map_map, List.map_map]
  apply List.map_congr_left
  intro kv hkv
  by_cases hk : kv.1 = k
  · have hv : kv.2 = v := lookupAll_singleton_value h kv hkv hk
    simp [Function.comp, collapseKV, hk, hv]
  · simp [Function.comp, collapseKV, hk]

theorem forall₂_map_reDecode (R : EntityData → EntityData → Prop)
    (l : List EntityData) (h : ∀ e ∈ l, R (reDecode e) e) :
    List.Forall₂ R (l.map reDecode) l := by
  induction l with
  | nil => exact .nil
  | cons e rest ih =>
    exact .cons (h e (List.mem_cons_self e rest))
      (ih (fun x hx => h x (List.mem_cons_of_mem e hx)))

theorem fromJsonldLoop_append (resolve : String → String → Option Variant)
    (es : List EntityData) :
    ∀ acc : DecodeAcc,
      (∀ e ∈ es, ¬(e.id = "./" ∧ e.type = "Dataset") ∧
        ¬(e.id = "ro-crate-metadata.json" ∧ e.type = "CreativeWork") ∧
        resolve e.schemaName e.type = some e.variant ∧
        (e.variant = .dataE ∨ e.variant = .contextualE)) →
      fromJsonldLoop resolve (es.map EntityData.as_jsonld) acc = .ok
        { acc with
          dataEs := acc.dataEs ++
            (es.filter (fun e => e.variant == .dataE)).map reDecode,
          ctxEs := acc.ctxEs ++
            (es.filter (fun e => e.variant == .contextualE)).map reDecode } := by
  induction es with
  | nil => intro acc _; simp [fromJsonldLoop]
  | cons e rest ih =>
    intro acc h
    obtain ⟨hroot, hmeta, hres, hvar⟩ := h e (List.mem_cons_self e rest)
    have hrest := fun x hx => h x (List.mem_cons_of_mem e hx)
    simp only [List.map_cons, fromJsonldLoop, EntityData.as_jsonld]
    rw [if_neg hroot, if_neg hmeta]
    simp only [Option.getD_some, parse_ctx, importCustomClass, EntityData.context]
    rw [hres]
    rcases hvar with hd | hc
    · rw [hd]
      have hinst : entityFromJsonld e.id e.type e.schemaName .dataE
          ⟨some e.id, some e.type, some (.custom ⟨GH_REPO, GH_REF, e.schemaName⟩),
            e.props.map collapseKV⟩ = reDecode e := by
        simp [entityFromJsonld, reDecode, ← hd]
      simp only [hinst]
      rw [ih _ hrest]
      simp [List.filter_cons, hd, List.append_assoc]
    · rw [hc]
      have hinst : entityFromJsonld e.id e.type e.schemaName .contextualE
          ⟨some e.id, some e.type, some (.custom ⟨GH_REPO, GH_REF, e.schemaName⟩),
            e.props.map collapseKV⟩ = reDecode e := by
        simp [entityFromJsonld, reDecode, ← hc]
      simp only [hinst]
      rw [ih _ hrest]
      simp [List.filter_cons, hc, List.append_assoc]

/-- **C1.** For every graph of only valid entities (structure checks pass,
no duplicate identities, the fixed root/metadata signatures in place, every
data/contextual entity's kind resolvable in its domain, and `root["hasPart"]`
holding the live data-entity list), decoding the encoded document
(`ROCrate(jsonld=crate.as_jsonld())`) reconstructs a graph with the same
list of `(id, type, domain)` identity triples — hence the same set — and,
entity by entity, equal property values, where a property holding an entity
reference is compared through the referenced entity's id (`obsProps`). -/
theorem c1_roundtrip_encode_decode
    (resolve : String → String → Option Variant)
    (checkF : EntityData → Except PyErr Unit)
    (c : Crate) (meta : EntityData)
    (htag : c.WellTagged)
    (hdefs : c.default_entities = [c.root, meta])
    (hroot_id : c.root.id = "./") (hroot_ty : c.root.type = "Dataset")
    (hroot_schema : c.root.schemaName = "base")
    (hmeta_id : meta.id = "ro-crate-metadata.json")
    (hmeta_ty : meta.type = "CreativeWork")
    (hmeta_schema : meta.schemaName = "base")
    (hsig : ∀ e ∈ c.data_entities ++ c.contextual_entities,
      ¬(e.id = "./" ∧ e.type = "Dataset") ∧
      ¬(e.id = "ro-crate-metadata.json" ∧ e.type = "CreativeWork") ∧
      resolve e.schemaName e.type = some e.variant)
    (hHasPart : lookupAll c.root.props "hasPart" = [hasPartValue c.data_entities])
    (hdup : c.check_duplicate_entity = .ok ())
    (hcheck : ∀ e ∈ c.all_entities, checkF e = .ok ()) :
    ∃ doc c', c.as_jsonld checkF = .ok doc ∧
      Crate.from_jsonld resolve doc = .ok c' ∧
      c'.triples = c.triples ∧
      (∀ t, t ∈ c'.triples ↔ t ∈ c.triples) ∧
      List.Forall₂ (fun e' e => e'.id = e.id ∧ e'.type = e.type ∧
        e'.schemaName = e.schemaName ∧ e'.obsProps = e.obsProps)
        c'.all_entities c.all_entities := by
  obtain ⟨htagdef, htagdata, htagctx⟩ := htag
  have honly : ∀ e ∈ c.all_entities, onlyEntityErrorsB checkF e = true := by
    intro e he
    unfold onlyEntityErrorsB
    rw [hcheck e he]
  have hfm : c.all_entities.filterMap (entityErrOf checkF) = [] := by
    rw [List.filterMap_eq_nil_iff]
    intro e he
    unfold entityErrOf
    rw [hcheck e he]
  have hcp : c.check_props checkF = .ok () := by
    unfold Crate.check_props
    rw [collectEntityErrors_eq checkF c.all_entities [] honly]
    simp [hfm]
  have hdoc : c.as_jsonld checkF =
      .ok ⟨some .roCrate, some (c.all_entities.map EntityData.as_jsonld)⟩ := by
    unfold Crate.as_jsonld
    rw [hdup, hcp]
  -- the decoded pieces
  have hgraph : c.all_entities.map EntityData.as_jsonld =
      c.root.as_jsonld :: meta.as_jsonld ::
        (c.data_entities ++ c.contextual_entities).map EntityData.as_jsonld := by
    unfold Crate.all_entities
    rw [hdefs]
    simp [List.append_assoc]
  have hsig' : ∀ e ∈ c.data_entities ++ c.contextual_entities,
      ¬(e.id = "./" ∧ e.type = "Dataset") ∧
      ¬(e.id = "ro-crate-metadata.json" ∧ e.type = "CreativeWork") ∧
      resolve e.schemaName e.type = some e.variant ∧
      (e.variant = .dataE ∨ e.variant = .contextualE) := by
    intro e he
    obtain ⟨h1, h2, h3⟩ := hsig e he
    rcases List.mem_append.mp he with hd | hc
    · exact ⟨h1, h2, h3, .inl (htagdata e hd)⟩
    · exact ⟨h1, h2, h3, .inr (htagctx e hc)⟩
  have hfilter1 : (c.data_entities ++ c.contextual_entities).filter
      (fun e => e.variant == .dataE) = c.data_entities := by
    rw [List.filter_append]
    rw [List.filter_eq_self.mpr (fun e he => by simp [htagdata e he]),
      List.filter_eq_nil_iff.mpr (fun e he => by simp [htagctx e he]),
      List.append_nil]
  have hfilter2 : (c.data_entities ++ c.contextual_entities).filter
      (fun e => e.variant == .contextualE) = c.contextual_entities := by
    rw [List.filter_append]
    rw [List.filter_eq_nil_iff.mpr (fun e he => by simp [htagdata e he]),
      List.filter_eq_self.mpr (fun e he => by simp [htagctx e he]),
      List.nil_append]
  have hnotroot : ¬(meta.id = "./" ∧ meta.type = "Dataset") := by
    rintro ⟨h, -⟩
    rw [hmeta_id] at h
    exact absurd h (by decide)
  have hloop : fromJsonldLoop resolve (c.all_entities.map EntityData.as_jsonld)
      ⟨none, none, [], []⟩ = .ok
      ⟨some ⟨"./", "Dataset", "base", .defaultE, c.root.props.map collapseKV⟩,
       some ⟨"ro-crate-metadata.json", "CreativeWork", "base", .defaultE,
         meta.props.map collapseKV⟩,
       c.data_entities.map reDecode, c.contextual_entities.map reDecode⟩ := by
    rw [hgraph]
    simp only [fromJsonldLoop, EntityData.as_jsonld]
    rw [if_pos ⟨hroot_id, hroot_ty⟩]
    rw [if_neg hnotroot, if_pos ⟨hmeta_id, hmeta_ty⟩]
    rw [fromJsonldLoop_append resolve _ _ hsig']
    rw [hfilter1, hfilter2]
    simp [entityFromJsonld]
  have hdec : Crate.from_jsonld resolve
      ⟨some .roCrate, some (c.all_entities.map EntityData.as_jsonld)⟩ = .ok
      ⟨[⟨"./", "Dataset", "base", .defaultE,
          dictSet (c.root.props.map collapseKV) "hasPart"
            (hasPartValue (c.data_entities.map reDecode))⟩,
        ⟨"ro-crate-metadata.json", "CreativeWork", "base", .defaultE,
          meta.props.map collapseKV⟩],
       c.data_entities.map reDecode, c.contextual_entities.map reDecode,
       ⟨"./", "Dataset", "base", .defaultE,
          dictSet (c.root.props.map collapseKV) "hasPart"
            (hasPartValue (c.data_entities.map reDecode))⟩⟩ := by
    have hstep : Crate.from_jsonld resolve
        ⟨some .roCrate, some (c.all_entities.map EntityData.as_jsonld)⟩ =
        (match fromJsonldLoop resolve (c.all_entities.map EntityData.as_jsonld)
            ⟨none, none, [], []⟩ with
         | .error err => .error err
         | .ok acc =>
           match acc.rootE with
           | none => .error (.valueError "The JSON-LD data must have a root data entity.")
           | some root =>
             match acc.metaE with
             | none => .error (.valueError "The JSON-LD data must have a metadata entity.")
             | some metaDec =>
               .ok ⟨[{ root with props := dictSet root.props "hasPart" (hasPartValue acc.dataEs) }, metaDec],
                 acc.dataEs, acc.ctxEs,
                 { root with props := dictSet root.props "hasPart" (hasPartValue acc.dataEs) }⟩) := rfl
    rw [hstep, hloop]
  refine ⟨_, _, hdoc, hdec, ?_, ?_, ?_⟩
  · unfold Crate.triples Crate.all_entities
    rw [hdefs]
    simp only [List.map_append, List.map_cons, List.map_nil, List.map_map]
    rw [hroot_id, hroot_ty, hroot_schema, hmeta_id, hmeta_ty, hmeta_schema]
    rfl
  · intro t
    constructor
    · intro h
      have htrip : (⟨[⟨"./", "Dataset", "base", .defaultE,
          dictSet (c.root.props.map collapseKV) "hasPart"
            (hasPartValue (c.data_entities.map reDecode))⟩,
        ⟨"ro-crate-metadata.json", "CreativeWork", "base", .defaultE,
          meta.props.map collapseKV⟩],
        c.data_entities.map reDecode, c.contextual_entities.map reDecode,
        ⟨"./", "Dataset", "base", .defaultE,
          dictSet (c.root.props.map collapseKV) "hasPart"
            (hasPartValue (c.data_entities.map reDecode))⟩⟩ : Crate).triples
          = c.triples := by
        unfold Crate.triples Crate.all_entities
        rw [hdefs]
        simp only [List.map_append, List.map_cons, List.map_nil, List.map_map]
        rw [hroot_id, hroot_ty, hroot_schema, hmeta_id, hmeta_ty, hmeta_schema]
        rfl
      rw [← htrip]
      exact h
    · intro h
      have htrip : (⟨[⟨"./", "Dataset", "base", .defaultE,
          dictSet (c.root.props.map collapseKV) "hasPart"
            (hasPartValue (c.data_entities.map reDecode))⟩,
        ⟨"ro-crate-metadata.json", "CreativeWork", "base", .defaultE,
          meta.props.map collapseKV⟩],
        c.data_entities.map reDecode, c.contextual_entities.map reDecode,
        ⟨"./", "Dataset", "base", .defaultE,
          dictSet (c.root.props.map collapseKV) "hasPart"
            (hasPartValue (c.data_entities.map reDecode))⟩⟩ : Crate).triples
          = c.triples := by
        unfold Crate.triples Crate.all_entities
        rw [hdefs]
        simp only [List.map_append, List.map_cons, List.map_nil, List.map_map]
        rw [hroot_id, hroot_ty, hroot_schema, hmeta_id, hmeta_ty, hmeta_schema]
        rfl
      rw [htrip]
      exact h
  · unfold Crate.all_entities
    rw [hdefs]
    refine List.rel_append (List.rel_append ?_ ?_) ?_
    · refine List.Forall₂.cons ⟨hroot_id.symm, hroot_ty.symm, hroot_schema.symm, ?_⟩
        (List.Forall₂.cons ⟨hmeta_id.symm, hmeta_ty.symm, hmeta_schema.symm, ?_⟩
          List.Forall₂.nil)
      · show List.map collapseKV (dictSet (c.root.props.map collapseKV) "hasPart"
          (hasPartValue (c.data_entities.map reDecode))) = _
        rw [hasPartValue_map_reDecode]
        rw [mapCollapse_dictSet hHasPart]
        rfl
      · exact obsProps_reDecode meta
    · exact forall₂_map_reDecode _ c.data_entities
        (fun e _ => ⟨rfl, rfl, rfl, obsProps_reDecode e⟩)
    · exact forall₂_map_reDecode _ c.contextual_entities
        (fun e _ => ⟨rfl, rfl, rfl, obsProps_reDecode e⟩)

/-- Witness for C1: the concrete crate `crateW1` (root, metadata descriptor,
one `cao` file with a live reference property, one `cao` person) satisfies
every hypothesis and round-trips. -/
theorem c1_roundtrip_encode_decode_witness :
    (Crate.WellTagged crateW1 ∧
     crateW1.default_entities = [crateW1.root, metaW1] ∧
     crateW1.root.id = "./" ∧ crateW1.root.type = "Dataset" ∧
     crateW1.root.schemaName = "base" ∧
     metaW1.id = "ro-crate-metadata.json" ∧ metaW1.type = "CreativeWork" ∧
     metaW1.schemaName = "base" ∧
     (∀ e ∈ crateW1.data_entities ++ crateW1.contextual_entities,
       ¬(e.id = "./" ∧ e.type = "Dataset") ∧
       ¬(e.id = "ro-crate-metadata.json" ∧ e.type = "CreativeWork") ∧
       resolveW e.schemaName e.type = some e.variant) ∧
     lookupAll crateW1.root.props "hasPart" = [hasPartValue crateW1.data_entities] ∧
     crateW1.check_duplicate_entity = .ok () ∧
     (∀ e ∈ crateW1.all_entities, checkAllOk e = .ok ())) ∧
    (∃ doc c', crateW1.as_jsonld checkAllOk = .ok doc ∧
      Crate.from_jsonld resolveW doc = .ok c' ∧
      c'.triples = crateW1.triples ∧
      (∀ t, t ∈ c'.triples ↔ t ∈ crateW1.triples) ∧
      List.Forall₂ (fun e' e => e'.id = e.id ∧ e'.type = e.type ∧
        e'.schemaName = e.schemaName ∧ e'.obsProps = e.obsProps)
        c'.all_entities crateW1.all_entities) :=
  ⟨⟨by decide, by decide, by decide, by decide, by decide, by decide, by decide,
    by decide, by decide, by decide, rfl, fun e _ => rfl⟩,
   c1_roundtrip_encode_decode resolveW checkAllOk crateW1 metaW1
     (by decide) (by decide) (by decide) (by decide) (by decide) (by decide)
     (by decide) (by decide) (by decide) (by decide) rfl (fun e _ => rfl)⟩

end NiiDg
